import Mathlib

/-!
Verification of the prayer-times calculator (`lib/prayer_times.py`) and its
DST helper (`lib/dst_utils.py`) against the natural-language specification.

The Python code is shallowly embedded: integer arithmetic is modelled with `ℤ`
(Python `//` and `%` with positive divisors agree with Lean's `/` and `%` on `ℤ`),
exact rational arithmetic with `ℚ`, and the floating-point solar computations with
`ℝ` (its real-number idealisation).  Strings are modelled with `String`; a Python
exception raised by `int(...)` on malformed input is modelled with `Except Unit`.
-/

open Real

set_option maxHeartbeats 1000000

/-! ## `lib/dst_utils.py` -/

/-- `get_weekday(year, month, day)` — Zeller's congruence, 0 = Sunday. -/
def get_weekday (year month day : ℤ) : ℤ :=
  let year2 := if month < 3 then year - 1 else year
  let month2 := if month < 3 then month + 12 else month
  let q := day
  let m := month2
  let k := year2 % 100
  let j := year2 / 100
  let h := (q + ((13 * (m + 1)) / 5) + k + (k / 4) + (j / 4) - 2 * j) % 7
  (h + 5) % 7

/-- `get_second_sunday_march(year)` — the day of the second Sunday in March. -/
def get_second_sunday_march (year : ℤ) : ℤ :=
  let march_1_weekday := get_weekday year 3 1
  let days_to_first_sunday := (7 - march_1_weekday) % 7
  let first_sunday := 1 + days_to_first_sunday
  first_sunday + 7

/-- `get_first_sunday_november(year)` — the day of the first Sunday in November. -/
def get_first_sunday_november (year : ℤ) : ℤ :=
  let nov_1_weekday := get_weekday year 11 1
  let days_to_first_sunday := (7 - nov_1_weekday) % 7
  1 + days_to_first_sunday

/-- `is_dst_active(year, month, day)` — US daylight-saving rule. -/
def is_dst_active (year month day : ℤ) : Bool :=
  if month < 3 ∨ month > 11 then false
  else if month > 3 ∧ month < 11 then true
  else
    let dst_start := get_second_sunday_march year
    let dst_end := get_first_sunday_november year
    if month = 3 then decide (day ≥ dst_start)
    else if month = 11 then decide (day < dst_end)
    else true

/-- `get_current_timezone_offset(base_timezone, daylight_saving_enabled)`.
The date that Python reads from `time.localtime()` is passed explicitly. -/
def get_current_timezone_offset (base_timezone : ℤ) (daylight_saving_enabled : Bool)
    (year month day : ℤ) : ℤ :=
  if !daylight_saving_enabled then base_timezone
  else if is_dst_active year month day then base_timezone + 1
  else base_timezone

/-! ## `lib/prayer_times.py` — non-astronomical parts -/

/-- One entry of the `self.methods` table: a fajr angle and an isha rule. -/
structure MethodParams where
  fajr : ℚ
  isha : ℚ
deriving DecidableEq

/-- `self.methods.get(calculation_method, self.methods['ISNA'])`. -/
def methods_lookup (calculation_method : String) : MethodParams :=
  if calculation_method = "ISNA" then ⟨15, 15⟩
  else if calculation_method = "MWL" then ⟨18, 17⟩
  else if calculation_method = "Mecca" then ⟨18.5, 90⟩
  else ⟨15, 15⟩

/-- `gregorian_to_julian(year, month, day)`: the result is a half-integer,
modelled exactly in `ℚ`.  `math.floor(year / 100)` is `⌊year / 100⌋`. -/
def gregorian_to_julian (year month day : ℤ) : ℚ :=
  let year2 := if month ≤ 2 then year - 1 else year
  let month2 := if month ≤ 2 then month + 12 else month
  let a : ℤ := ⌊(year2 : ℚ) / 100⌋
  let b : ℤ := 2 - a + ⌊(a : ℚ) / 4⌋
  ((⌊(365.25 : ℚ) * ((year2 : ℚ) + 4716)⌋ : ℤ) : ℚ)
    + ((⌊(30.6001 : ℚ) * ((month2 : ℚ) + 1)⌋ : ℤ) : ℚ)
    + (day : ℚ) + (b : ℚ) - 1524.5

/-- The same computation without the Jan/Feb month shift, used to state how
the shift rewrites the arguments. -/
def gregorian_to_julian_core (year2 month2 day : ℤ) : ℚ :=
  let a : ℤ := ⌊(year2 : ℚ) / 100⌋
  let b : ℤ := 2 - a + ⌊(a : ℚ) / 4⌋
  ((⌊(365.25 : ℚ) * ((year2 : ℚ) + 4716)⌋ : ℤ) : ℚ)
    + ((⌊(30.6001 : ℚ) * ((month2 : ℚ) + 1)⌋ : ℤ) : ℚ)
    + (day : ℚ) + (b : ℚ) - 1524.5

/-- A Gregorian calendar date on or after 1582-10-15 (the reform cutoff the
specification refers to). -/
def onOrAfterGregorianReform (year month day : ℤ) : Prop :=
  year > 1582 ∨ (year = 1582 ∧ (month > 10 ∨ (month = 10 ∧ day ≥ 15)))

instance (year month day : ℤ) : Decidable (onOrAfterGregorianReform year month day) := by
  unfold onOrAfterGregorianReform; infer_instance

/-- Modelled from the spec's words (for comparison with the code): the same
Julian-day algorithm but with the Gregorian correction term `b` applied only
for dates on or after 1582-10-15, and `b = 0` before. -/
def gregorian_to_julian_claim (year month day : ℤ) : ℚ :=
  let year2 := if month ≤ 2 then year - 1 else year
  let month2 := if month ≤ 2 then month + 12 else month
  let a : ℤ := ⌊(year2 : ℚ) / 100⌋
  let b : ℤ := if onOrAfterGregorianReform year month day then 2 - a + ⌊(a : ℚ) / 4⌋ else 0
  ((⌊(365.25 : ℚ) * ((year2 : ℚ) + 4716)⌋ : ℤ) : ℚ)
    + ((⌊(30.6001 : ℚ) * ((month2 : ℚ) + 1)⌋ : ℤ) : ℚ)
    + (day : ℚ) + (b : ℚ) - 1524.5

/-- Python's `f"{n:02d}"`: zero-pad a small non-negative number to two digits. -/
def pad2 (n : ℤ) : String :=
  if 0 ≤ n ∧ n < 10 then "0" ++ toString n else toString n

/-- The `"HH:MM"` string built by `hours_to_time` and by
`check_prayer_time_alert` for the current time. -/
def fmt_time (h m : ℤ) : String :=
  pad2 h ++ ":" ++ pad2 m

/-- `str.split(':')` at the character level (kernel-reducible, unlike
`String.splitOn`). -/
def split_on_colon : List Char → List (List Char)
  | [] => [[]]
  | c :: rest =>
    let r := split_on_colon rest
    if c = ':' then [] :: r
    else
      match r with
      | [] => [[c]]
      | h :: t => (c :: h) :: t

/-- Python's `int(s)` on the digit strings produced by the time formatter;
`none` models the `ValueError` on empty/non-digit input. -/
def py_int (cs : List Char) : Option ℤ :=
  match cs with
  | [] => none
  | _ =>
    if cs.all (fun c => c.isDigit) then
      some (cs.foldl (fun acc c => acc * 10 + ((c.toNat : ℤ) - 48)) 0)
    else none

/-- `map(int, prayer_time.split(':'))` and `hour*60 + minute`; `none` models the
exception on a malformed string. -/
def parse_time_minutes (t : String) : Option ℤ :=
  match split_on_colon t.toList with
  | [a, b] =>
    match py_int a, py_int b with
    | some x, some y => some (x * 60 + y)
    | _, _ => none
  | _ => none

/-- The `prayer_order` list in `get_next_prayer` (Sunrise is not in it). -/
def prayer_order : List String :=
  ["Fajr", "Dhuhr", "Asr", "Maghrib", "Isha"]

/-- Dictionary membership + indexing on the cached schedule, which is an
insertion-ordered association list. -/
def cache_lookup (cache : List (String × String)) (name : String) : Option String :=
  (cache.find? (fun e => e.1 == name)).map (fun e => e.2)

/-- The `for prayer in prayer_order` loop body of `get_next_prayer`. -/
def next_prayer_loop (cache : List (String × String)) (current_minutes : ℤ) :
    List String → Except Unit (Option (String × String))
  | [] => Except.ok none
  | prayer :: rest =>
    match cache_lookup cache prayer with
    | none => next_prayer_loop cache current_minutes rest
    | some prayer_time =>
      match parse_time_minutes prayer_time with
      | none => Except.error ()
      | some prayer_minutes =>
        if prayer_minutes > current_minutes then Except.ok (some (prayer, prayer_time))
        else next_prayer_loop cache current_minutes rest

/-- `get_next_prayer()` on an already-populated cache; the current RTC hour and
minute are passed explicitly. -/
def get_next_prayer (cache : List (String × String)) (hour minute : ℤ) :
    Except Unit (String × String) :=
  match next_prayer_loop cache (hour * 60 + minute) prayer_order with
  | Except.error e => Except.error e
  | Except.ok (some r) => Except.ok r
  | Except.ok none => Except.ok ("Fajr", (cache_lookup cache "Fajr").getD "--:--")

/-- `check_prayer_time_alert(hour, minute)` on an already-populated cache:
first entry whose stored string equals the formatted current time. -/
def check_prayer_time_alert (cache : List (String × String)) (hour minute : ℤ) :
    Option String :=
  let current_time := fmt_time hour minute
  (cache.find? (fun e => e.2 == current_time)).map (fun e => e.1)

/-! ## Claim C8 — DST boundary behaviour -/

/-- C8: evaluation of the code at the 2025 DST boundaries.  The second Sunday
of March 2025 is March 9 and the first Sunday of November 2025 is November 2,
so by the US rule (and by `is_dst_active`'s own docstring) DST is active on
2025-03-09 and inactive on 2025-11-02.  The code returns the opposite on both
dates: `get_weekday` converts Zeller's value (where 0 = Saturday) with
`(h + 5) % 7` instead of `(h + 6) % 7`, so it maps the Sunday 2025-03-02 to 6
— contradicting its docstring "0=Sunday" — and the `get_*_sunday_*` helpers
land one day late (on Mondays: 10 and 3). -/
theorem is_dst_active_code_bug :
    is_dst_active 2025 3 9 = false ∧
    is_dst_active 2025 11 2 = true ∧
    is_dst_active 2025 3 8 = false ∧
    is_dst_active 2025 11 1 = true ∧
    get_weekday 2025 3 2 = 6 ∧
    get_second_sunday_march 2025 = 10 ∧
    get_first_sunday_november 2025 = 3 := by
  refine ⟨by decide, by decide, by decide, by decide, by decide, by decide, by decide⟩

/-! ## Claim C5 — exact-match alert -/

/-- C5: `check_prayer_time_alert` returns a prayer name iff the zero-padded
`"HH:MM"` string of the queried time exactly equals some cached entry; the name
returned is the first matching entry in schedule order (no earlier entry
matches), and it returns `none` iff no cached entry equals the formatted time
(in particular any time whose formatted string differs from every entry —
e.g. one minute off a well-formed schedule — yields `none`). -/
theorem check_prayer_time_alert_spec (cache : List (String × String)) (hour minute : ℤ) :
    (∀ p, check_prayer_time_alert cache hour minute = some p ↔
      ∃ pre e post, cache = pre ++ e :: post ∧ e.2 = fmt_time hour minute ∧ e.1 = p ∧
        ∀ e' ∈ pre, e'.2 ≠ fmt_time hour minute) ∧
    (check_prayer_time_alert cache hour minute = none ↔
      ∀ e ∈ cache, e.2 ≠ fmt_time hour minute) := by
  constructor
  · intro p
    induction cache with
    | nil => simp [check_prayer_time_alert]
    | cons c t ih =>
      by_cases hc : c.2 = fmt_time hour minute
      · simp only [check_prayer_time_alert, List.find?_cons, hc, beq_self_eq_true,
          Option.map_some]
        constructor
        · intro h
          exact ⟨[], c, t, by simp, hc, by simpa using h, by simp⟩
        · rintro ⟨pre, e, post, hsplit, he2, he1, hpre⟩
          cases pre with
          | nil =>
            simp only [List.nil_append, List.cons.injEq] at hsplit
            simp [← he1, ← hsplit.1]
          | cons q qs =>
            simp only [List.cons_append, List.cons.injEq] at hsplit
            exact absurd (hsplit.1 ▸ hc) (hpre q (by simp))
      · have hbeq : (c.2 == fmt_time hour minute) = false := by
          simp [hc]
        simp only [check_prayer_time_alert, List.find?_cons, hbeq] at ih ⊢
        rw [ih]
        constructor
        · rintro ⟨pre, e, post, hsplit, he2, he1, hpre⟩
          refine ⟨c :: pre, e, post, by simp [hsplit], he2, he1, ?_⟩
          intro e' he'
          rcases List.mem_cons.mp he' with h | h
          · exact h ▸ hc
          · exact hpre e' h
        · rintro ⟨pre, e, post, hsplit, he2, he1, hpre⟩
          cases pre with
          | nil =>
            simp only [List.nil_append, List.cons.injEq] at hsplit
            exact absurd (hsplit.1 ▸ he2) hc
          | cons q qs =>
            simp only [List.cons_append, List.cons.injEq] at hsplit
            exact ⟨qs, e, post, hsplit.2, he2, he1, fun e' he' => hpre e' (by simp [he'])⟩
  · simp only [check_prayer_time_alert, Option.map_eq_none', List.find?_eq_none,
      beq_iff_eq]

/-! ## Claim C4 — next-prayer selection -/

/-- C4: on a cache containing the five ordered prayers (with parseable times),
`get_next_prayer` returns — without raising — the first of Fajr, Dhuhr, Asr,
Maghrib, Isha (Sunrise is not consulted) whose clock time strictly exceeds
`hour*60 + minute`, and falls back to `('Fajr', cached Fajr time)` when no
prayer time strictly exceeds the current time, without recomputing anything. -/
theorem get_next_prayer_spec (cache : List (String × String)) (hour minute : ℤ)
    (tF tD tA tM tI : String) (mF mD mA mM mI : ℤ)
    (hF : cache_lookup cache "Fajr" = some tF) (hpF : parse_time_minutes tF = some mF)
    (hD : cache_lookup cache "Dhuhr" = some tD) (hpD : parse_time_minutes tD = some mD)
    (hA : cache_lookup cache "Asr" = some tA) (hpA : parse_time_minutes tA = some mA)
    (hM : cache_lookup cache "Maghrib" = some tM) (hpM : parse_time_minutes tM = some mM)
    (hI : cache_lookup cache "Isha" = some tI) (hpI : parse_time_minutes tI = some mI) :
    get_next_prayer cache hour minute =
      Except.ok
        (if mF > hour * 60 + minute then ("Fajr", tF)
         else if mD > hour * 60 + minute then ("Dhuhr", tD)
         else if mA > hour * 60 + minute then ("Asr", tA)
         else if mM > hour * 60 + minute then ("Maghrib", tM)
         else if mI > hour * 60 + minute then ("Isha", tI)
         else ("Fajr", tF)) := by
  simp only [get_next_prayer, prayer_order, next_prayer_loop, hF, hpF, hD, hpD,
    hA, hpA, hM, hpM, hI, hpI]
  by_cases c1 : mF > hour * 60 + minute
  · simp [c1]
  by_cases c2 : mD > hour * 60 + minute
  · simp [c1, c2]
  by_cases c3 : mA > hour * 60 + minute
  · simp [c1, c2, c3]
  by_cases c4 : mM > hour * 60 + minute
  · simp [c1, c2, c3, c4]
  by_cases c5 : mI > hour * 60 + minute
  · simp [c1, c2, c3, c4, c5]
  · simp [c1, c2, c3, c4, c5, hF]

/-- C4 witness: a concrete schedule queried after Isha returns
`('Fajr', cached Fajr time)` without error, by the theorem. -/
theorem get_next_prayer_spec_witness :
    get_next_prayer
      [("Fajr", "05:31"), ("Sunrise", "07:07"), ("Dhuhr", "13:29"), ("Asr", "16:58"),
       ("Maghrib", "19:52"), ("Isha", "21:00")] 22 30 = Except.ok ("Fajr", "05:31") := by
  have h := get_next_prayer_spec
    [("Fajr", "05:31"), ("Sunrise", "07:07"), ("Dhuhr", "13:29"), ("Asr", "16:58"),
     ("Maghrib", "19:52"), ("Isha", "21:00")] 22 30
    "05:31" "13:29" "16:58" "19:52" "21:00" 331 809 1018 1192 1260
    (by decide) (by decide) (by decide) (by decide) (by decide) (by decide)
    (by decide) (by decide) (by decide) (by decide)
  rw [h]
  norm_num

/-! ## Claim C2 — Julian day number -/

/-- C2 counterexample: at 1500-01-01 (before the 1582-10-15 cutoff) the code's
conversion differs from the cutoff-conditional algorithm the claim describes,
because the code applies the Gregorian correction term unconditionally. -/
theorem gregorian_to_julian_cutoff_counterexample :
    gregorian_to_julian 1500 1 1 ≠ gregorian_to_julian_claim 1500 1 1 := by
  have hcut : ¬ onOrAfterGregorianReform 1500 1 1 := by
    unfold onOrAfterGregorianReform; omega
  have h1 : ⌊((1499 : ℚ)) / 100⌋ = 14 := by norm_num [Int.floor_eq_iff]
  have h2 : ⌊((14 : ℚ)) / 4⌋ = 3 := by norm_num [Int.floor_eq_iff]
  have h3 : ⌊(365.25 : ℚ) * 6215⌋ = 2270028 := by norm_num [Int.floor_eq_iff]
  have h4 : ⌊(30.6001 : ℚ) * 14⌋ = 428 := by norm_num [Int.floor_eq_iff]
  simp only [gregorian_to_julian, gregorian_to_julian_claim, hcut, if_false]
  norm_num [h1, h2, h3, h4]

/-- C2 amended: `gregorian_to_julian` treats January and February as months
13/14 of the previous year, but applies the Gregorian correction term
`b = 2 - a + ⌊a/4⌋` unconditionally for every date; consequently it agrees
with the cutoff-conditional algorithm exactly on dates on/after 1582-10-15. -/
theorem gregorian_to_julian_amended (year month day : ℤ) :
    (gregorian_to_julian year 1 day = gregorian_to_julian_core (year - 1) 13 day) ∧
    (gregorian_to_julian year 2 day = gregorian_to_julian_core (year - 1) 14 day) ∧
    (3 ≤ month → gregorian_to_julian year month day = gregorian_to_julian_core year month day) ∧
    (onOrAfterGregorianReform year month day →
      gregorian_to_julian year month day = gregorian_to_julian_claim year month day) := by
  refine ⟨?_, ?_, ?_, ?_⟩
  · simp [gregorian_to_julian, gregorian_to_julian_core]
  · simp [gregorian_to_julian, gregorian_to_julian_core]
  · intro h
    have h2 : ¬ (month ≤ 2) := by omega
    simp [gregorian_to_julian, gregorian_to_julian_core, h2]
  · intro h
    simp [gregorian_to_julian, gregorian_to_julian_claim, if_pos h]

/-- C2 witness: the amended theorem applied at 2025-09-03 with its hypotheses
discharged concretely. -/
theorem gregorian_to_julian_amended_witness :
    (3 : ℤ) ≤ 9 ∧ onOrAfterGregorianReform 2025 9 3 ∧
      gregorian_to_julian 2025 9 3 = gregorian_to_julian_claim 2025 9 3 :=
  ⟨by norm_num, Or.inl (by norm_num),
    (gregorian_to_julian_amended 2025 9 3).2.2.2 (Or.inl (by norm_num))⟩

/-! ## Solar model — the astronomical part of `calculate_times`

Floating-point `math.sin`/`math.cos`/... are embedded as the corresponding
real functions. -/

/-- `math.radians`. -/
noncomputable def radiansR (x : ℝ) : ℝ := x * π / 180

/-- `math.degrees`. -/
noncomputable def degreesR (x : ℝ) : ℝ := x * 180 / π

/-- Python's float `%` (result has the divisor's sign; for the positive
divisors used here, `a - b*⌊a/b⌋`). -/
noncomputable def pymodR (a b : ℝ) : ℝ := a - b * (⌊a / b⌋ : ℤ)

/-- Python's `math.atan2(y, x)` in real semantics. -/
noncomputable def atan2 (y x : ℝ) : ℝ :=
  if 0 < x then arctan (y / x)
  else if x < 0 then (if 0 ≤ y then arctan (y / x) + π else arctan (y / x) - π)
  else if 0 < y then π / 2
  else if y < 0 then -(π / 2)
  else 0

/-- The clamp `if cos_h > 1: cos_h = 1 elif cos_h < -1: cos_h = -1` that appears
both in `calculate_horizon_time` and in the Asr computation. -/
noncomputable def clamp_cos (x : ℝ) : ℝ :=
  if x > 1 then 1 else if x < -1 then -1 else x

/-- Mean solar longitude `L0` (normalized with `% 360`). -/
noncomputable def L0_of (T : ℝ) : ℝ :=
  pymodR (280.46646 + 36000.76983 * T + 0.0003032 * T * T) 360

/-- Mean anomaly `M` (normalized with `% 360`). -/
noncomputable def M_of (T : ℝ) : ℝ :=
  pymodR (357.52911 + 35999.05029 * T - 0.0001537 * T * T) 360

/-- Equation of center `C`. -/
noncomputable def C_of (T : ℝ) : ℝ :=
  (1.914602 - 0.004817 * T - 0.000014 * T * T) * Real.sin (radiansR (M_of T)) +
    (0.019993 - 0.000101 * T) * Real.sin (radiansR (2 * M_of T)) +
    0.000289 * Real.sin (radiansR (3 * M_of T))

/-- True longitude `L = L0 + C`. -/
noncomputable def L_of (T : ℝ) : ℝ := L0_of T + C_of T

/-- Obliquity of the ecliptic `epsilon`. -/
noncomputable def epsilon_of (T : ℝ) : ℝ := 23.439 - 0.00000036 * T

/-- Solar declination (degrees). -/
noncomputable def declination_of (T : ℝ) : ℝ :=
  degreesR (arcsin (Real.sin (radiansR (epsilon_of T)) * Real.sin (radiansR (L_of T))))

/-- Right ascension `RA` (degrees, normalized to `[0, 360)`). -/
noncomputable def RA_of (T : ℝ) : ℝ :=
  pymodR
    (degreesR (atan2 (Real.cos (radiansR (epsilon_of T)) * Real.sin (radiansR (L_of T)))
      (Real.cos (radiansR (L_of T)))) + 360) 360

/-- Equation of time before the `±24` wrap. -/
noncomputable def eqt_raw (T : ℝ) : ℝ := (L0_of T - RA_of T) / 15

/-- Equation of time (in hours), wrapped into range. -/
noncomputable def equation_of (T : ℝ) : ℝ :=
  if eqt_raw T > 12 then eqt_raw T - 24
  else if eqt_raw T < -12 then eqt_raw T + 24
  else eqt_raw T

/-- Solar transit: `transit = 12 - eqt`. -/
noncomputable def transit_of (T : ℝ) : ℝ := 12 - equation_of T

/-- Julian centuries since J2000.0: `T = (julian_day - 2451545.0) / 36525`. -/
noncomputable def julian_century (year month day : ℤ) : ℝ :=
  (((gregorian_to_julian year month day : ℚ) : ℝ) - 2451545.0) / 36525

/-- The `cos_h` expression shared by `calculate_horizon_time` and the Asr
computation. -/
noncomputable def cos_hour_angle (latitude angle declination : ℝ) : ℝ :=
  (Real.sin (radiansR angle) - Real.sin (radiansR declination) * Real.sin (radiansR latitude)) /
    (Real.cos (radiansR declination) * Real.cos (radiansR latitude))

/-- `calculate_horizon_time(transit, angle, declination, after_transit)`. -/
noncomputable def calculate_horizon_time (latitude transit angle declination : ℝ)
    (after_transit : Bool) : ℝ :=
  let hour_angle := degreesR (arccos (clamp_cos (cos_hour_angle latitude angle declination))) / 15
  if after_transit then transit + hour_angle else transit - hour_angle

/-- The Asr altitude angle:
`degrees(atan(1.0 / (shadow_factor + tan(radians(abs(latitude - decl))))))`. -/
noncomputable def asr_angle_of (latitude declination shadow_factor : ℝ) : ℝ :=
  degreesR (arctan (1 / (shadow_factor + Real.tan (radiansR |latitude - declination|))))

/-- The Asr time in decimal hours (the inline clamped-acos computation in
`calculate_times`). -/
noncomputable def asr_hours (latitude shadow_factor T : ℝ) : ℝ :=
  let asr_angle := asr_angle_of latitude (declination_of T) shadow_factor
  transit_of T +
    degreesR (arccos (clamp_cos (cos_hour_angle latitude asr_angle (declination_of T)))) / 15

/-- Sunrise (horizon time at −0.833°, before transit). -/
noncomputable def sunrise_hours (latitude T : ℝ) : ℝ :=
  calculate_horizon_time latitude (transit_of T) (-0.833) (declination_of T) false

/-- Sunset (horizon time at −0.833°, after transit). -/
noncomputable def sunset_hours (latitude T : ℝ) : ℝ :=
  calculate_horizon_time latitude (transit_of T) (-0.833) (declination_of T) true

/-- Fajr (horizon time at −fajr angle, before transit). -/
noncomputable def fajr_hours (latitude : ℝ) (method : MethodParams) (T : ℝ) : ℝ :=
  calculate_horizon_time latitude (transit_of T) (-((method.fajr : ℚ) : ℝ))
    (declination_of T) false

/-- Maghrib: `sunset + 3/60`. -/
noncomputable def maghrib_hours (latitude T : ℝ) : ℝ :=
  sunset_hours latitude T + 3 / 60

/-- Isha: fixed minutes after Maghrib when `method['isha'] > 90`, otherwise an
angle-based horizon time after transit. -/
noncomputable def isha_hours (latitude : ℝ) (method : MethodParams) (T : ℝ) : ℝ :=
  if method.isha > 90 then maghrib_hours latitude T + ((method.isha : ℚ) : ℝ) / 60
  else
    calculate_horizon_time latitude (transit_of T) (-((method.isha : ℚ) : ℝ))
      (declination_of T) true

/-- `hours_to_time(hours, True)` before string formatting: the (hour, minute)
pair after longitude correction, timezone shift, normalization into `[0, 24)`
and truncation. -/
noncomputable def hours_to_time_pair (longitude timezone hours : ℝ) : ℤ × ℤ :=
  let longitude_correction := -longitude / 15
  let hours2 := hours + longitude_correction + timezone
  let hn := pymodR hours2 24
  let h := ⌊hn⌋
  let m := ⌊(hn - (h : ℝ)) * 60⌋
  (h, m)

/-- `hours_to_time(hours, True)`: the final `"HH:MM"` string. -/
noncomputable def hours_to_time (longitude timezone hours : ℝ) : String :=
  fmt_time (hours_to_time_pair longitude timezone hours).1
    (hours_to_time_pair longitude timezone hours).2

/-- `calculate_times(year, month, day)`: the six-entry schedule, as a pure
function of the construction parameters it reads. -/
noncomputable def calculate_times (latitude longitude timezone : ℝ)
    (calculation_method : String) (asr_madhab : ℝ) (year month day : ℤ) :
    List (String × String) :=
  let T := julian_century year month day
  let method := methods_lookup calculation_method
  [("Fajr", hours_to_time longitude timezone (fajr_hours latitude method T)),
   ("Sunrise", hours_to_time longitude timezone (sunrise_hours latitude T)),
   ("Dhuhr", hours_to_time longitude timezone (transit_of T)),
   ("Asr", hours_to_time longitude timezone (asr_hours latitude asr_madhab T)),
   ("Maghrib", hours_to_time longitude timezone (maghrib_hours latitude T)),
   ("Isha", hours_to_time longitude timezone (isha_hours latitude method T))]

/-! ## The `PrayerTimes` object state and its mutating methods -/

/-- The `config` collaborator: `config.get('daylight_saving', True)`. -/
structure PrayerAppConfig where
  daylight_saving : Option Bool

/-- The mutable fields of a `PrayerTimes` instance. -/
structure PrayerTimesState where
  latitude : ℝ
  longitude : ℝ
  base_timezone : ℤ
  timezone : ℤ
  calculation_method : String
  config : Option PrayerAppConfig
  asr_madhab : ℝ
  prayer_times_cache : List (String × String)
  last_update_day : ℤ

/-- A value of `rtc.datetime()` / `time.localtime()`. -/
structure RtcDateTime where
  year : ℤ
  month : ℤ
  day : ℤ
  hour : ℤ
  minute : ℤ

/-- `calculate_times` as the method it is in the source: it reads the instance
and returns the schedule; it contains no assignment to `self`, so the
post-state is the pre-state. -/
noncomputable def calculate_times_method (s : PrayerTimesState) (year month day : ℤ) :
    List (String × String) × PrayerTimesState :=
  (calculate_times s.latitude s.longitude (s.timezone : ℝ) s.calculation_method
    s.asr_madhab year month day, s)

/-- `update_prayer_times()`: re-derive the timezone from the DST resolver when
a config is present, then recompute the cache only when the RTC day-of-month
differs from `last_update_day`.  The RTC reading and the `time.localtime()`
reading used by the DST resolver are passed explicitly. -/
noncomputable def update_prayer_times (s : PrayerTimesState) (rtcNow localtimeNow : RtcDateTime) :
    List (String × String) × PrayerTimesState :=
  let s1 :=
    match s.config with
    | some config =>
      let daylight_saving_enabled := config.daylight_saving.getD true
      let tz := get_current_timezone_offset s.base_timezone daylight_saving_enabled
        localtimeNow.year localtimeNow.month localtimeNow.day
      { s with timezone := tz }
    | none => s
  if rtcNow.day ≠ s1.last_update_day then
    let times := calculate_times s1.latitude s1.longitude (s1.timezone : ℝ)
      s1.calculation_method s1.asr_madhab rtcNow.year rtcNow.month rtcNow.day
    (times, { s1 with prayer_times_cache := times, last_update_day := rtcNow.day })
  else (s1.prayer_times_cache, s1)

/-! ## Claim C1 — the Mecca isha branch -/

/-- C1: the Mecca profile stores its isha rule as exactly 90 (the table's own
comment reads "90 minutes after Maghrib"), but the fixed-minutes branch in
`calculate_times` tests `method['isha'] > 90` strictly, so for Mecca the test
fails and Isha is computed by the angle-based branch as a horizon time at
θ = −90°, not as Maghrib + 90/60 hours. -/
theorem mecca_isha_takes_angle_branch :
    (methods_lookup "Mecca").isha = 90 ∧
    ¬ ((methods_lookup "Mecca").isha > 90) ∧
    ∀ latitude T : ℝ,
      isha_hours latitude (methods_lookup "Mecca") T =
        calculate_horizon_time latitude (transit_of T)
          (-(((methods_lookup "Mecca").isha : ℚ) : ℝ)) (declination_of T) true := by
  have hm : methods_lookup "Mecca" = ⟨18.5, 90⟩ := by
    simp [methods_lookup]
  refine ⟨by rw [hm], by rw [hm]; norm_num, ?_⟩
  intro latitude T
  rw [isha_hours, if_neg (by rw [hm]; norm_num)]

/-! ## Claim C9 — clamping guards the acos domain -/

/-- C9: the shared clamp always lands in `[-1, 1]`, so every `acos` in
`calculate_horizon_time` and the Asr computation receives an in-domain
argument and the function totally returns a value; when the raw `cos_h`
undershoots `-1` the result silently saturates to `transit ± 12` hours
instead of signalling "no such crossing". -/
theorem clamp_guards_acos_domain :
    (∀ x : ℝ, -1 ≤ clamp_cos x ∧ clamp_cos x ≤ 1) ∧
    (∀ latitude transit angle declination : ℝ,
      cos_hour_angle latitude angle declination < -1 →
        calculate_horizon_time latitude transit angle declination true = transit + 12 ∧
        calculate_horizon_time latitude transit angle declination false = transit - 12) := by
  constructor
  · intro x
    unfold clamp_cos
    split_ifs <;> constructor <;> linarith
  · intro latitude transit angle declination h
    have hclamp : clamp_cos (cos_hour_angle latitude angle declination) = -1 := by
      unfold clamp_cos
      rw [if_neg (by linarith), if_pos h]
    have harc : degreesR (arccos (clamp_cos (cos_hour_angle latitude angle declination))) / 15
        = 12 := by
      rw [hclamp, Real.arccos_neg_one, degreesR]
      rw [mul_comm, mul_div_assoc, div_self pi_ne_zero]
      norm_num
    constructor
    · rw [calculate_horizon_time]
      simp only [if_pos]
      rw [harc]
    · rw [calculate_horizon_time]
      simp only [Bool.false_eq_true, if_neg, if_false]
      rw [harc]

/-- C9 witness: at latitude 60°, declination 0° and target altitude −90° the
raw `cos_h` is −2 (exactly), the clamp saturates, and the horizon time comes
back as `transit + 12` for a concrete transit of 5. -/
theorem clamp_guards_acos_domain_witness :
    cos_hour_angle 60 (-90) 0 < -1 ∧ calculate_horizon_time 60 5 (-90) 0 true = 17 := by
  have h0 : radiansR 0 = 0 := by unfold radiansR; ring
  have h90 : radiansR (-90) = -(π / 2) := by unfold radiansR; ring
  have h60 : radiansR 60 = π / 3 := by unfold radiansR; ring
  have hch : cos_hour_angle 60 (-90) 0 = -2 := by
    unfold cos_hour_angle
    rw [h0, h90, h60, Real.sin_neg, Real.sin_pi_div_two, Real.sin_zero, Real.cos_zero,
      Real.cos_pi_div_three]
    norm_num
  have hlt : cos_hour_angle 60 (-90) 0 < -1 := by rw [hch]; norm_num
  refine ⟨hlt, ?_⟩
  have h := (clamp_guards_acos_domain.2 60 5 (-90) 0 hlt).1
  rw [h]; norm_num

/-! ## Claim C10 — `calculate_times` does not mutate the instance -/

/-- C10: `calculate_times`, as a method, only reads the instance: the
post-state equals the pre-state in every field, and the returned schedule is
the pure function of the fields it reads; only `update_prayer_times` writes
the cache and the cached-day marker. -/
theorem calculate_times_method_pure (s : PrayerTimesState) (year month day : ℤ) :
    (calculate_times_method s year month day).2 = s ∧
    (calculate_times_method s year month day).1 =
      calculate_times s.latitude s.longitude (s.timezone : ℝ) s.calculation_method
        s.asr_madhab year month day :=
  ⟨rfl, rfl⟩

/-! ## Claims C6 and C7 — caching policy and timezone refresh -/

/-- After any call to `update_prayer_times`, the cached-day marker equals the
RTC day that was passed: either the recompute branch stored it, or the
no-recompute branch required it to be equal already. -/
theorem update_prayer_times_day_eq (s : PrayerTimesState) (rtcNow localtimeNow : RtcDateTime) :
    (update_prayer_times s rtcNow localtimeNow).2.last_update_day = rtcNow.day := by
  unfold update_prayer_times
  rcases hconf : s.config with _ | config <;> simp only [hconf] <;>
    split_ifs with h <;> simp_all

/-- The no-recompute branch: when the RTC day equals the cached-day marker the
call returns the existing cache and leaves both the cache and the marker
untouched (only the timezone field may be rewritten). -/
theorem update_prayer_times_cache_hit (s : PrayerTimesState) (rtcNow localtimeNow : RtcDateTime)
    (h : rtcNow.day = s.last_update_day) :
    (update_prayer_times s rtcNow localtimeNow).1 = s.prayer_times_cache ∧
    (update_prayer_times s rtcNow localtimeNow).2.prayer_times_cache = s.prayer_times_cache ∧
    (update_prayer_times s rtcNow localtimeNow).2.last_update_day = s.last_update_day := by
  unfold update_prayer_times
  rcases hconf : s.config with _ | config <;> simp only [hconf] <;>
    split_ifs with hday <;> simp_all

/-- C6: calling `update_prayer_times` twice on the same calendar day (same RTC
day-of-month, no reset of the marker in between) performs no recomputation on
the second call: it returns exactly the cached schedule of the first call and
leaves cache and marker unchanged; and whenever the RTC day equals the cached
marker, no recomputation happens at all. -/
theorem update_prayer_times_same_day_cached (s : PrayerTimesState)
    (rtcNow localtimeNow : RtcDateTime) :
    (rtcNow.day = s.last_update_day →
      (update_prayer_times s rtcNow localtimeNow).1 = s.prayer_times_cache ∧
      (update_prayer_times s rtcNow localtimeNow).2.prayer_times_cache =
        s.prayer_times_cache ∧
      (update_prayer_times s rtcNow localtimeNow).2.last_update_day =
        s.last_update_day) ∧
    (update_prayer_times (update_prayer_times s rtcNow localtimeNow).2 rtcNow
        localtimeNow).1 =
      (update_prayer_times s rtcNow localtimeNow).2.prayer_times_cache ∧
    (update_prayer_times (update_prayer_times s rtcNow localtimeNow).2 rtcNow
        localtimeNow).2.prayer_times_cache =
      (update_prayer_times s rtcNow localtimeNow).2.prayer_times_cache := by
  refine ⟨fun h => update_prayer_times_cache_hit s rtcNow localtimeNow h, ?_, ?_⟩
  · exact (update_prayer_times_cache_hit _ rtcNow localtimeNow
      (update_prayer_times_day_eq s rtcNow localtimeNow).symm).1
  · exact (update_prayer_times_cache_hit _ rtcNow localtimeNow
      (update_prayer_times_day_eq s rtcNow localtimeNow).symm).2.1

/-- C6 witness: a concrete same-day call leaves a concrete cache untouched,
by the theorem. -/
theorem update_prayer_times_same_day_cached_witness :
    ((2025 : ℤ), (9 : ℤ), (3 : ℤ)).2.2 =
      (PrayerTimesState.mk 27.9506 (-82.4572) (-4) (-4) "ISNA" none 1
        [("Fajr", "05:31")] 3).last_update_day ∧
    (update_prayer_times
      (PrayerTimesState.mk 27.9506 (-82.4572) (-4) (-4) "ISNA" none 1
        [("Fajr", "05:31")] 3)
      (RtcDateTime.mk 2025 9 3 22 30) (RtcDateTime.mk 2025 9 3 22 30)).1 =
      [("Fajr", "05:31")] := by
  constructor
  · rfl
  · exact (update_prayer_times_same_day_cached
      (PrayerTimesState.mk 27.9506 (-82.4572) (-4) (-4) "ISNA" none 1
        [("Fajr", "05:31")] 3)
      (RtcDateTime.mk 2025 9 3 22 30) (RtcDateTime.mk 2025 9 3 22 30)).1 rfl |>.1

/-- C7: with a config present, every call to `update_prayer_times` stores the
freshly resolved DST-aware offset into the `timezone` field — also when the
day has not changed — and in that no-recompute case the cached schedule and
the cached-day marker are left exactly as they were. -/
theorem update_prayer_times_timezone_refresh (s : PrayerTimesState)
    (rtcNow localtimeNow : RtcDateTime) (config : PrayerAppConfig)
    (hcfg : s.config = some config) :
    (update_prayer_times s rtcNow localtimeNow).2.timezone =
      get_current_timezone_offset s.base_timezone (config.daylight_saving.getD true)
        localtimeNow.year localtimeNow.month localtimeNow.day ∧
    (rtcNow.day = s.last_update_day →
      (update_prayer_times s rtcNow localtimeNow).2.prayer_times_cache =
        s.prayer_times_cache ∧
      (update_prayer_times s rtcNow localtimeNow).2.last_update_day =
        s.last_update_day ∧
      (update_prayer_times s rtcNow localtimeNow).1 = s.prayer_times_cache) := by
  constructor
  · unfold update_prayer_times
    simp only [hcfg]
    split_ifs with h <;> simp
  · intro h
    obtain ⟨h1, h2, h3⟩ := update_prayer_times_cache_hit s rtcNow localtimeNow h
    exact ⟨h2, h3, h1⟩

/-- C7 witness: a concrete same-day call with DST enabled on 2025-07-04
rewrites the timezone from the base −5 to −4 while the cache and marker stay
put, by the theorem. -/
theorem update_prayer_times_timezone_refresh_witness :
    (update_prayer_times
      (PrayerTimesState.mk 27.9506 (-82.4572) (-5) (-5) "ISNA"
        (some (PrayerAppConfig.mk (some true))) 1 [("Fajr", "05:31")] 4)
      (RtcDateTime.mk 2025 7 4 12 0) (RtcDateTime.mk 2025 7 4 12 0)).2.timezone = -4 ∧
    (update_prayer_times
      (PrayerTimesState.mk 27.9506 (-82.4572) (-5) (-5) "ISNA"
        (some (PrayerAppConfig.mk (some true))) 1 [("Fajr", "05:31")] 4)
      (RtcDateTime.mk 2025 7 4 12 0) (RtcDateTime.mk 2025 7 4 12 0)).2.prayer_times_cache =
      [("Fajr", "05:31")] := by
  have h := update_prayer_times_timezone_refresh
    (PrayerTimesState.mk 27.9506 (-82.4572) (-5) (-5) "ISNA"
      (some (PrayerAppConfig.mk (some true))) 1 [("Fajr", "05:31")] 4)
    (RtcDateTime.mk 2025 7 4 12 0) (RtcDateTime.mk 2025 7 4 12 0)
    (PrayerAppConfig.mk (some true)) rfl
  refine ⟨?_, (h.2 rfl).1⟩
  rw [h.1]
  decide

/-! ## Numeric toolkit for settling claim C3

Elementary quantitative facts about the real trigonometric functions, used to
evaluate the solar model rigorously on the two concrete inputs of C3. -/

theorem sin_le_self_of_nonneg {x : ℝ} (hx : 0 ≤ x) : Real.sin x ≤ x := by
  rcases eq_or_lt_of_le hx with h | h
  · simp [← h]
  · exact le_of_lt (Real.sin_lt h)

theorem abs_sin_le_abs_self (x : ℝ) : |Real.sin x| ≤ |x| := by
  have aux : ∀ y : ℝ, 0 ≤ y → |Real.sin y| ≤ y := by
    intro y hy
    rcases le_total 1 y with h1 | h1
    · exact le_trans (Real.abs_sin_le_one y) h1
    · have hs : 0 ≤ Real.sin y :=
        Real.sin_nonneg_of_nonneg_of_le_pi hy (h1.trans (by linarith [Real.pi_gt_three]))
      rw [abs_of_nonneg hs]
      exact sin_le_self_of_nonneg hy
  rcases le_total 0 x with hx | hx
  · rw [abs_of_nonneg hx]; exact aux x hx
  · rw [abs_of_nonpos hx]
    have := aux (-x) (by linarith)
    rwa [Real.sin_neg, abs_neg] at this

theorem abs_cos_sub_cos_le (a b : ℝ) : |Real.cos a - Real.cos b| ≤ |a - b| := by
  rw [Real.cos_sub_cos]
  have h1 : |Real.sin ((a - b) / 2)| ≤ |(a - b) / 2| := abs_sin_le_abs_self _
  have h2 : |Real.sin ((a + b) / 2)| ≤ 1 := Real.abs_sin_le_one _
  have h3 : |(a - b) / 2| = |a - b| / 2 := by rw [abs_div]; norm_num
  calc |(-2) * Real.sin ((a + b) / 2) * Real.sin ((a - b) / 2)|
      = 2 * |Real.sin ((a + b) / 2)| * |Real.sin ((a - b) / 2)| := by
        rw [abs_mul, abs_mul]; norm_num
    _ ≤ 2 * 1 * (|a - b| / 2) := by
        apply mul_le_mul
        · apply mul_le_mul_of_nonneg_left h2; norm_num
        · rw [← h3]; exact h1
        · exact abs_nonneg _
        · norm_num
    _ = |a - b| := by ring

theorem one_sub_sq_div_two_le_cos (x : ℝ) : 1 - x ^ 2 / 2 ≤ Real.cos x := by
  have hid : Real.cos x = 1 - 2 * Real.sin (x / 2) ^ 2 := by
    have h1 : Real.cos (2 * (x / 2)) = 2 * Real.cos (x / 2) ^ 2 - 1 := Real.cos_two_mul _
    have h2 : Real.sin (x / 2) ^ 2 + Real.cos (x / 2) ^ 2 = 1 := Real.sin_sq_add_cos_sq _
    have h3 : (2 : ℝ) * (x / 2) = x := by ring
    rw [h3] at h1
    linarith
  have hs : Real.sin (x / 2) ^ 2 ≤ (x / 2) ^ 2 := by
    have := abs_sin_le_abs_self (x / 2)
    calc Real.sin (x / 2) ^ 2 = |Real.sin (x / 2)| ^ 2 := (sq_abs _).symm
      _ ≤ |x / 2| ^ 2 := by
          apply pow_le_pow_left (abs_nonneg _) this
      _ = (x / 2) ^ 2 := sq_abs _
  nlinarith

theorem sin_le_taylor {x : ℝ} (h1 : |x| ≤ 1) :
    Real.sin x ≤ x - x ^ 3 / 6 + x ^ 4 * (5 / 96) := by
  have h := abs_sub_le_iff.1 (Real.sin_bound h1)
  have he : |x| ^ 4 = x ^ 4 := by
    rw [← abs_pow]
    exact abs_of_nonneg (by positivity)
  nlinarith [h.1, h.2]

theorem taylor_le_sin {x : ℝ} (h1 : |x| ≤ 1) :
    x - x ^ 3 / 6 - x ^ 4 * (5 / 96) ≤ Real.sin x := by
  have h := abs_sub_le_iff.1 (Real.sin_bound h1)
  have he : |x| ^ 4 = x ^ 4 := by
    rw [← abs_pow]
    exact abs_of_nonneg (by positivity)
  nlinarith [h.1, h.2]

theorem cos_le_taylor {x : ℝ} (h1 : |x| ≤ 1) :
    Real.cos x ≤ 1 - x ^ 2 / 2 + x ^ 4 * (5 / 96) := by
  have h := abs_sub_le_iff.1 (Real.cos_bound h1)
  have he : |x| ^ 4 = x ^ 4 := by
    rw [← abs_pow]
    exact abs_of_nonneg (by positivity)
  nlinarith [h.1, h.2]

theorem taylor_le_cos {x : ℝ} (h1 : |x| ≤ 1) :
    1 - x ^ 2 / 2 - x ^ 4 * (5 / 96) ≤ Real.cos x := by
  have h := abs_sub_le_iff.1 (Real.cos_bound h1)
  have he : |x| ^ 4 = x ^ 4 := by
    rw [← abs_pow]
    exact abs_of_nonneg (by positivity)
  nlinarith [h.1, h.2]

theorem le_arcsin_self {x : ℝ} (h0 : 0 ≤ x) (h1 : x ≤ 1) : x ≤ arcsin x := by
  have h2 : Real.sin (arcsin x) = x := Real.sin_arcsin (by linarith) h1
  have h3 : 0 ≤ arcsin x := Real.arcsin_nonneg.mpr h0
  calc x = Real.sin (arcsin x) := h2.symm
    _ ≤ arcsin x := sin_le_self_of_nonneg h3

theorem arcsin_le_of_mul {x s q : ℝ} (h0 : 0 ≤ x) (hs : 0 < s) (hsq : s ^ 2 ≤ 1 - x ^ 2)
    (hq : x ≤ s * q) : arcsin x ≤ q := by
  have hx1 : x < 1 := by nlinarith
  have hsqrt : s ≤ Real.sqrt (1 - x ^ 2) := by
    rw [show s = Real.sqrt (s ^ 2) by rw [Real.sqrt_sq hs.le]]
    exact Real.sqrt_le_sqrt hsq
  have hsqrt0 : 0 < Real.sqrt (1 - x ^ 2) := lt_of_lt_of_le hs hsqrt
  have harc : arcsin x ≤ x / Real.sqrt (1 - x ^ 2) := by
    rcases eq_or_lt_of_le h0 with h | h
    · rw [← h]; simp
    · have ht0 : 0 < arcsin x := Real.arcsin_pos.mpr h
      have ht2 : arcsin x < π / 2 := Real.arcsin_lt_pi_div_two.mpr hx1
      have hlt := Real.lt_tan ht0 ht2
      rw [Real.tan_eq_sin_div_cos, Real.sin_arcsin (by linarith) hx1.le,
        Real.cos_arcsin] at hlt
      exact hlt.le
  calc arcsin x ≤ x / Real.sqrt (1 - x ^ 2) := harc
    _ ≤ x / s := by
        apply div_le_div_of_nonneg_left h0 hs hsqrt
    _ ≤ q := by
        rw [div_le_iff hs]
        linarith [hq]

theorem arccos_le_of_cos_le {c t : ℝ} (ht0 : 0 ≤ t) (htpi : t ≤ π) (h : Real.cos t ≤ c) :
    arccos c ≤ t := by
  have h1 : arcsin (Real.cos t) ≤ arcsin c := Real.monotone_arcsin h
  have h2 : arcsin (Real.cos t) = π / 2 - t := by
    rw [← Real.sin_pi_div_two_sub]
    exact Real.arcsin_sin (by linarith) (by linarith)
  rw [Real.arccos_eq_pi_div_two_sub_arcsin]
  linarith

theorem le_arccos_of_le_cos {c t : ℝ} (ht0 : 0 ≤ t) (htpi : t ≤ π) (h : c ≤ Real.cos t) :
    t ≤ arccos c := by
  have h1 : arcsin c ≤ arcsin (Real.cos t) := Real.monotone_arcsin h
  have h2 : arcsin (Real.cos t) = π / 2 - t := by
    rw [← Real.sin_pi_div_two_sub]
    exact Real.arcsin_sin (by linarith) (by linarith)
  rw [Real.arccos_eq_pi_div_two_sub_arcsin]
  linarith

theorem arccos_antitone {a b : ℝ} (hab : a ≤ b) : arccos b ≤ arccos a := by
  rw [Real.arccos_eq_pi_div_two_sub_arcsin, Real.arccos_eq_pi_div_two_sub_arcsin]
  have := Real.monotone_arcsin hab
  linarith

theorem sub_le_arccos_sub {a b : ℝ} (ha : -1 ≤ a) (hab : a ≤ b) (hb : b ≤ 1) :
    b - a ≤ arccos a - arccos b := by
  have hca : Real.cos (arccos a) = a := Real.cos_arccos ha (hab.trans hb)
  have hcb : Real.cos (arccos b) = b := Real.cos_arccos (ha.trans hab) hb
  have hmono : arccos b ≤ arccos a := arccos_antitone hab
  have hlip := abs_cos_sub_cos_le (arccos b) (arccos a)
  rw [hca, hcb] at hlip
  rw [abs_of_nonneg (by linarith), abs_of_nonpos (by linarith)] at hlip
  linarith

theorem pymodR_eq_fract {a b : ℝ} (hb : b ≠ 0) : pymodR a b = b * Int.fract (a / b) := by
  unfold pymodR Int.fract
  field_simp

theorem pymodR_nonneg {b : ℝ} (hb : 0 < b) (a : ℝ) : 0 ≤ pymodR a b := by
  rw [pymodR_eq_fract hb.ne']
  exact mul_nonneg hb.le (Int.fract_nonneg _)

theorem pymodR_lt {b : ℝ} (hb : 0 < b) (a : ℝ) : pymodR a b < b := by
  rw [pymodR_eq_fract hb.ne']
  calc b * Int.fract (a / b) < b * 1 := by
        exact mul_lt_mul_of_pos_left (Int.fract_lt_one _) hb
    _ = b := mul_one b

theorem pymodR_sub_eq (a b : ℝ) : ∃ k : ℤ, pymodR a b = a - b * k :=
  ⟨⌊a / b⌋, rfl⟩

theorem pymodR_eq_self {a b : ℝ} (hb : 0 < b) (h0 : 0 ≤ a) (h1 : a < b) : pymodR a b = a := by
  unfold pymodR
  have : ⌊a / b⌋ = 0 := by
    rw [Int.floor_eq_zero_iff]
    constructor
    · exact div_nonneg h0 hb.le
    · rw [div_lt_one hb]; exact h1
  rw [this]
  push_cast
  ring

theorem pymodR_eq_add {a b : ℝ} (hb : 0 < b) (h0 : -b ≤ a) (h1 : a < 0) :
    pymodR a b = a + b := by
  unfold pymodR
  have : ⌊a / b⌋ = -1 := by
    apply Int.floor_eq_iff.mpr
    constructor
    · push_cast
      rw [le_div_iff hb]
      linarith
    · push_cast
      rw [div_lt_iff hb]
      linarith
  rw [this]
  push_cast
  ring

theorem degreesR_radiansR (x : ℝ) : degreesR (radiansR x) = x := by
  unfold degreesR radiansR
  field_simp

theorem radiansR_degreesR (x : ℝ) : radiansR (degreesR x) = x := by
  unfold radiansR degreesR
  field_simp

theorem abs_degreesR_le {x c : ℝ} (_hc : 0 ≤ c) (h : |x| ≤ c * (π / 180)) :
    |degreesR x| ≤ c := by
  unfold degreesR
  rw [abs_div, abs_mul]
  rw [abs_of_pos Real.pi_pos, abs_of_nonneg (by norm_num : (0:ℝ) ≤ 180)]
  rw [div_le_iff Real.pi_pos]
  calc |x| * 180 ≤ c * (π / 180) * 180 := by
        apply mul_le_mul_of_nonneg_right h; norm_num
    _ = c * π := by ring

theorem floor_hour_minute_split (x : ℝ) :
    ⌊x⌋ * 60 + ⌊(x - ((⌊x⌋ : ℤ) : ℝ)) * 60⌋ = ⌊60 * x⌋ := by
  have h : (x - ((⌊x⌋ : ℤ) : ℝ)) * 60 = 60 * x - ((60 * ⌊x⌋ : ℤ) : ℝ) := by
    push_cast; ring
  rw [h, Int.floor_sub_int]
  omega

theorem hours_pair_minutes (longitude timezone hours : ℝ) :
    (hours_to_time_pair longitude timezone hours).1 * 60 +
      (hours_to_time_pair longitude timezone hours).2 =
    ⌊60 * pymodR (hours + -longitude / 15 + timezone) 24⌋ := by
  exact floor_hour_minute_split (pymodR (hours + -longitude / 15 + timezone) 24)

theorem minutes_lt_of_gap {a b : ℝ} (h : a + 1 / 60 ≤ b) : ⌊60 * a⌋ < ⌊60 * b⌋ := by
  have h1 : (60 : ℝ) * a + 1 ≤ 60 * b := by linarith
  have h2 : ⌊(60 : ℝ) * a + 1⌋ ≤ ⌊(60 : ℝ) * b⌋ := Int.floor_le_floor h1
  rw [show ((1 : ℝ) = ((1 : ℤ) : ℝ)) by norm_num, Int.floor_add_int] at h2
  omega

theorem sin_mul_cos_eq (x y : ℝ) :
    Real.sin x * Real.cos y = (Real.sin (x + y) + Real.sin (x - y)) / 2 := by
  rw [Real.sin_add, Real.sin_sub]
  ring

/-- Core distortion bound: compressing the tangent by a factor
`k ≥ (1 - sin d)/(1 + sin d)` moves the recovered angle by at most `d`. -/
theorem arctan_mul_tan_bounds {k w d : ℝ} (hk1 : k ≤ 1) (hd0 : 0 < d) (hdlt : d < π / 2)
    (hk : (1 - Real.sin d) / (1 + Real.sin d) ≤ k) (hw0 : 0 ≤ w) (hw : w < π / 2) :
    w - d ≤ arctan (k * Real.tan w) ∧ arctan (k * Real.tan w) ≤ w := by
  have hπ := Real.pi_pos
  have htw : 0 ≤ Real.tan w := Real.tan_nonneg_of_nonneg_of_le_pi_div_two hw0 hw.le
  have hsd : 0 < Real.sin d := Real.sin_pos_of_pos_of_lt_pi hd0 (by linarith)
  have hsd1 : Real.sin d ≤ 1 := Real.sin_le_one d
  have hk0 : 0 ≤ k := le_trans (div_nonneg (by linarith) (by linarith)) hk
  constructor
  case right =>
    have h1 : k * Real.tan w ≤ Real.tan w := by nlinarith
    calc arctan (k * Real.tan w) ≤ arctan (Real.tan w) :=
          Real.arctan_strictMono.monotone h1
      _ = w := Real.arctan_tan (by linarith) hw
  case left =>
    by_cases hwd : w ≤ d
    · have h1 : 0 ≤ arctan (k * Real.tan w) := by
        rw [← Real.arctan_zero]
        exact Real.arctan_strictMono.monotone (by nlinarith)
      linarith
    · push_neg at hwd
      have hu0 : 0 < w - d := by linarith
      have hu2 : w - d < π / 2 := by linarith
      suffices h : Real.tan (w - d) ≤ k * Real.tan w by
        have hmono := Real.arctan_strictMono.monotone h
        rwa [Real.arctan_tan (by linarith) hu2] at hmono
      have hcw : 0 < Real.cos w := Real.cos_pos_of_mem_Ioo ⟨by linarith, hw⟩
      have hcu : 0 < Real.cos (w - d) := Real.cos_pos_of_mem_Ioo ⟨by linarith, by linarith⟩
      rw [Real.tan_eq_sin_div_cos, Real.tan_eq_sin_div_cos, ← mul_div_assoc,
        div_le_div_iff hcu hcw]
      have e1 : Real.sin (w - d) * Real.cos w =
          (Real.sin (2 * w - d) + Real.sin (-d)) / 2 := by
        have := sin_mul_cos_eq (w - d) w
        have ha : w - d + w = 2 * w - d := by ring
        have hb : w - d - w = -d := by ring
        rwa [ha, hb] at this
      have e2 : Real.sin w * Real.cos (w - d) =
          (Real.sin (2 * w - d) + Real.sin d) / 2 := by
        have := sin_mul_cos_eq w (w - d)
        have ha : w + (w - d) = 2 * w - d := by ring
        have hb : w - (w - d) = d := by ring
        rwa [ha, hb] at this
      rw [e1, Real.sin_neg]
      have hS1 : Real.sin (2 * w - d) ≤ 1 := Real.sin_le_one _
      have hS0 : 0 < Real.sin (2 * w - d) :=
        Real.sin_pos_of_pos_of_lt_pi (by linarith) (by linarith)
      set S := Real.sin (2 * w - d)
      set s := Real.sin d
      have key : (S - s) * (1 + s) ≤ (1 - s) * (S + s) := by nlinarith
      have h2 : ((1 - s) / (1 + s)) * (S + s) ≥ S - s := by
        rw [ge_iff_le, div_mul_eq_mul_div, le_div_iff (by linarith)]
        nlinarith
      have h3 : k * (S + s) ≥ ((1 - s) / (1 + s)) * (S + s) :=
        mul_le_mul_of_nonneg_right hk (by linarith)
      have h4 : k * Real.sin w * Real.cos (w - d) = k * ((S + s) / 2) := by
        rw [mul_assoc, e2]
      rw [h4]
      linarith

theorem atan2_pos_x {y x : ℝ} (hx : 0 < x) : atan2 y x = arctan (y / x) := by
  unfold atan2
  rw [if_pos hx]

theorem atan2_neg_x_nonneg_y {y x : ℝ} (hx : x < 0) (hy : 0 ≤ y) :
    atan2 y x = arctan (y / x) + π := by
  unfold atan2
  rw [if_neg (by linarith), if_pos hx, if_pos hy]

theorem atan2_neg_x_neg_y {y x : ℝ} (hx : x < 0) (hy : y < 0) :
    atan2 y x = arctan (y / x) - π := by
  unfold atan2
  rw [if_neg (by linarith), if_pos hx, if_neg (by linarith)]

theorem atan2_zero_x_pos_y {y : ℝ} (hy : 0 < y) : atan2 y 0 = π / 2 := by
  unfold atan2
  rw [if_neg (lt_irrefl 0), if_neg (lt_irrefl 0), if_pos hy]

theorem atan2_zero_x_neg_y {y : ℝ} (hy : y < 0) : atan2 y 0 = -(π / 2) := by
  unfold atan2
  rw [if_neg (lt_irrefl 0), if_neg (lt_irrefl 0), if_neg (by linarith), if_pos hy]

/-- atan2 of a vertically compressed unit vector recovers the angle up to `d`,
for angles in `[-π, π]` (up to a full-turn ambiguity at `w = -π`). -/
theorem atan2_scaled_bounds_core {k d w : ℝ} (hk0 : 0 < k) (hk1 : k ≤ 1) (hd0 : 0 < d)
    (hdlt : d < π / 2) (hk : (1 - Real.sin d) / (1 + Real.sin d) ≤ k)
    (hwl : -π ≤ w) (hwu : w ≤ π) :
    ∃ m : ℤ, |atan2 (k * Real.sin w) (Real.cos w) - (w - m * (2 * π))| ≤ d := by
  have hπ := Real.pi_pos
  rcases lt_or_ge w (-(π / 2)) with hA | hB
  · rcases eq_or_lt_of_le hwl with heq | hlt
    · -- w = -π : the vector is (-1, 0); atan2 gives π = w + 2π
      refine ⟨-1, ?_⟩
      rw [← heq]
      have hs : k * Real.sin (-π) = 0 := by
        rw [Real.sin_neg, Real.sin_pi]; ring
      have hc : Real.cos (-π) = -1 := by
        rw [Real.cos_neg, Real.cos_pi]
      rw [hs, hc, atan2_neg_x_nonneg_y (by norm_num) le_rfl]
      have ht : -π - ((-1 : ℤ) : ℝ) * (2 * π) = π := by push_cast; ring
      rw [ht]
      have hz : arctan (0 / (-1 : ℝ)) + π = π := by
        norm_num
      rw [hz, sub_self, abs_zero]
      exact hd0.le
    · -- -π < w < -π/2
      refine ⟨0, ?_⟩
      have hv0 : 0 < w + π := by linarith
      have hv2 : w + π < π / 2 := by linarith
      have hwv : w = (w + π) - π := by ring
      have hsw : Real.sin w = -Real.sin (w + π) := by
        conv_lhs => rw [hwv]
        rw [Real.sin_sub, Real.sin_pi, Real.cos_pi]
        ring
      have hcw : Real.cos w = -Real.cos (w + π) := by
        conv_lhs => rw [hwv]
        rw [Real.cos_sub, Real.sin_pi, Real.cos_pi]
        ring
      have hsv : 0 < Real.sin (w + π) :=
        Real.sin_pos_of_pos_of_lt_pi hv0 (by linarith)
      have hcv : 0 < Real.cos (w + π) :=
        Real.cos_pos_of_mem_Ioo ⟨by linarith, hv2⟩
      rw [hsw, hcw]
      have hy : k * -Real.sin (w + π) < 0 := by nlinarith
      rw [atan2_neg_x_neg_y (by linarith) hy]
      have hdiv : k * -Real.sin (w + π) / -Real.cos (w + π) = k * Real.tan (w + π) := by
        rw [Real.tan_eq_sin_div_cos]
        field_simp
      rw [hdiv]
      obtain ⟨hlo, hhi⟩ := arctan_mul_tan_bounds hk1 hd0 hdlt hk hv0.le hv2
      rw [abs_le]
      constructor
      · push_cast; linarith
      · push_cast; linarith
  · rcases lt_or_ge w (π / 2) with hC | hD
    · rcases eq_or_lt_of_le hB with heq | hlt
      · -- w = -π/2 : the vector is (0, -k)
        refine ⟨0, ?_⟩
        rw [← heq]
        have hs : Real.sin (-(π / 2)) = -1 := by
          rw [Real.sin_neg, Real.sin_pi_div_two]
        have hc : Real.cos (-(π / 2)) = 0 := by
          rw [Real.cos_neg, Real.cos_pi_div_two]
        rw [hs, hc, atan2_zero_x_neg_y (by nlinarith)]
        push_cast
        rw [show -(π / 2) - (-(π / 2) - 0 * (2 * π)) = 0 by ring, abs_zero]
        exact hd0.le
      · -- -π/2 < w < π/2
        refine ⟨0, ?_⟩
        have hcw : 0 < Real.cos w := Real.cos_pos_of_mem_Ioo ⟨hlt, hC⟩
        rw [atan2_pos_x hcw, mul_div_assoc, ← Real.tan_eq_sin_div_cos]
        push_cast
        rcases le_or_lt 0 w with hw0 | hwneg
        · obtain ⟨hlo, hhi⟩ := arctan_mul_tan_bounds hk1 hd0 hdlt hk hw0 hC
          rw [abs_le]
          constructor <;> linarith
        · have hrw : k * Real.tan w = -(k * Real.tan (-w)) := by
            rw [Real.tan_neg]; ring
          rw [hrw, Real.arctan_neg]
          obtain ⟨hlo, hhi⟩ := arctan_mul_tan_bounds hk1 hd0 hdlt hk
            (by linarith : (0:ℝ) ≤ -w) (by linarith : -w < π / 2)
          rw [abs_le]
          constructor <;> linarith
    · rcases eq_or_lt_of_le hD with heq | hlt
      · -- w = π/2 : the vector is (0, k)
        refine ⟨0, ?_⟩
        rw [← heq]
        rw [Real.sin_pi_div_two, Real.cos_pi_div_two, mul_one, atan2_zero_x_pos_y hk0]
        push_cast
        rw [show π / 2 - (π / 2 - (0 : ℝ) * (2 * π)) = 0 by ring, abs_zero]
        exact hd0.le
      · rcases eq_or_lt_of_le hwu with heqpi | hltpi
        · -- w = π
          refine ⟨0, ?_⟩
          rw [heqpi]
          have hs : k * Real.sin π = 0 := by rw [Real.sin_pi]; ring
          rw [hs, Real.cos_pi, atan2_neg_x_nonneg_y (by norm_num) le_rfl]
          have hz : arctan (0 / (-1 : ℝ)) + π = π := by norm_num
          rw [hz]
          push_cast
          rw [show π - (π - (0 : ℝ) * (2 * π)) = 0 by ring, abs_zero]
          exact hd0.le
        · -- π/2 < w < π
          refine ⟨0, ?_⟩
          have hv0 : 0 < π - w := by linarith
          have hv2 : π - w < π / 2 := by linarith
          have hwv : w = π - (π - w) := by ring
          have hsw : Real.sin w = Real.sin (π - w) := by
            conv_lhs => rw [hwv]
            rw [Real.sin_pi_sub]
          have hcw : Real.cos w = -Real.cos (π - w) := by
            conv_lhs => rw [hwv]
            rw [Real.cos_pi_sub]
          have hsv : 0 < Real.sin (π - w) :=
            Real.sin_pos_of_pos_of_lt_pi hv0 (by linarith)
          have hcv : 0 < Real.cos (π - w) :=
            Real.cos_pos_of_mem_Ioo ⟨by linarith, hv2⟩
          rw [hsw, hcw]
          have hy : 0 ≤ k * Real.sin (π - w) := by positivity
          rw [atan2_neg_x_nonneg_y (by linarith) hy]
          have hdiv : k * Real.sin (π - w) / -Real.cos (π - w) = -(k * Real.tan (π - w)) := by
            rw [Real.tan_eq_sin_div_cos]
            field_simp
          rw [hdiv, Real.arctan_neg]
          obtain ⟨hlo, hhi⟩ := arctan_mul_tan_bounds hk1 hd0 hdlt hk hv0.le hv2
          rw [abs_le]
          constructor
          · push_cast; linarith
          · push_cast; linarith

/-- Periodic wrapper: for any real angle, atan2 of the compressed vector equals
the angle minus a whole number of turns, within `d`. -/
theorem atan2_scaled_bounds {k d : ℝ} (hk0 : 0 < k) (hk1 : k ≤ 1) (hd0 : 0 < d)
    (hdlt : d < π / 2) (hk : (1 - Real.sin d) / (1 + Real.sin d) ≤ k) (θ : ℝ) :
    ∃ n : ℤ, |atan2 (k * Real.sin θ) (Real.cos θ) - (θ - n * (2 * π))| ≤ d := by
  have hπ := Real.pi_pos
  have h2π : (0 : ℝ) < 2 * π := by positivity
  set n0 : ℤ := round (θ / (2 * π)) with hn0
  have hwabs : |θ - n0 * (2 * π)| ≤ π := by
    have h1 : |θ / (2 * π) - n0| ≤ 1 / 2 := by
      rw [hn0]; exact abs_sub_round _
    have h2 : θ - n0 * (2 * π) = (θ / (2 * π) - n0) * (2 * π) := by
      field_simp
      ring
    rw [h2, abs_mul, abs_of_pos h2π]
    calc |θ / (2 * π) - (n0 : ℝ)| * (2 * π) ≤ 1 / 2 * (2 * π) :=
          mul_le_mul_of_nonneg_right h1 h2π.le
      _ = π := by ring
  have hsineq : Real.sin θ = Real.sin (θ - n0 * (2 * π)) :=
    (Real.sin_sub_int_mul_two_pi θ n0).symm
  have hcoseq : Real.cos θ = Real.cos (θ - n0 * (2 * π)) :=
    (Real.cos_sub_int_mul_two_pi θ n0).symm
  obtain ⟨m, hm⟩ := atan2_scaled_bounds_core hk0 hk1 hd0 hdlt hk
    (abs_le.mp hwabs).1 (abs_le.mp hwabs).2
  refine ⟨n0 + m, ?_⟩
  rw [hsineq, hcoseq]
  have harg : θ - ((n0 + m : ℤ) : ℝ) * (2 * π) = (θ - n0 * (2 * π)) - m * (2 * π) := by
    push_cast
    ring
  rw [harg]
  exact hm

/-! ## Evaluating the solar model on 2025-09-03 -/

theorem gregorian_to_julian_2025 : gregorian_to_julian 2025 9 3 = 2460921.5 := by
  have h1 : ⌊((2025 : ℚ)) / 100⌋ = 20 := by norm_num [Int.floor_eq_iff]
  have h2 : ⌊((20 : ℚ)) / 4⌋ = 5 := by norm_num [Int.floor_eq_iff]
  have h3 : ⌊(365.25 : ℚ) * 6741⌋ = 2462150 := by norm_num [Int.floor_eq_iff]
  have h4 : ⌊(30.6001 : ℚ) * 10⌋ = 306 := by norm_num [Int.floor_eq_iff]
  have h9 : ¬ ((9 : ℤ) ≤ 2) := by norm_num
  simp only [gregorian_to_julian, if_neg h9]
  norm_num [h1, h2, h3, h4]

theorem julian_century_2025 : julian_century 2025 9 3 = 9376.5 / 36525 := by
  unfold julian_century
  rw [gregorian_to_julian_2025]
  push_cast
  norm_num

theorem julian_century_2025_bounds :
    0.25671 ≤ julian_century 2025 9 3 ∧ julian_century 2025 9 3 ≤ 0.25672 := by
  rw [julian_century_2025]
  constructor <;> norm_num

/-- Coefficient bound for the equation of center on any plausible century. -/
theorem C_of_abs_le {T : ℝ} (h0 : 0 ≤ T) (h1 : T ≤ 0.26) : |C_of T| ≤ 1.9349 := by
  unfold C_of
  have s1 := Real.abs_sin_le_one (radiansR (M_of T))
  have s2 := Real.abs_sin_le_one (radiansR (2 * M_of T))
  have s3 := Real.abs_sin_le_one (radiansR (3 * M_of T))
  have n1 := abs_nonneg (Real.sin (radiansR (M_of T)))
  have n2 := abs_nonneg (Real.sin (radiansR (2 * M_of T)))
  have n3 := abs_nonneg (Real.sin (radiansR (3 * M_of T)))
  have c1 : |(1.914602 : ℝ) - 0.004817 * T - 0.000014 * T * T| ≤ 1.914602 := by
    rw [abs_le]; constructor <;> nlinarith
  have c2 : |(0.019993 : ℝ) - 0.000101 * T| ≤ 0.019993 := by
    rw [abs_le]; constructor <;> nlinarith
  have t1 : |(1.914602 - 0.004817 * T - 0.000014 * T * T) * Real.sin (radiansR (M_of T))|
      ≤ 1.914602 := by
    rw [abs_mul]
    calc |(1.914602 : ℝ) - 0.004817 * T - 0.000014 * T * T| * |Real.sin (radiansR (M_of T))|
        ≤ 1.914602 * 1 := by
          apply mul_le_mul c1 s1 n1 (by norm_num)
      _ = 1.914602 := by norm_num
  have t2 : |(0.019993 - 0.000101 * T) * Real.sin (radiansR (2 * M_of T))| ≤ 0.019993 := by
    rw [abs_mul]
    calc |(0.019993 : ℝ) - 0.000101 * T| * |Real.sin (radiansR (2 * M_of T))|
        ≤ 0.019993 * 1 := by
          apply mul_le_mul c2 s2 n2 (by norm_num)
      _ = 0.019993 := by norm_num
  have t3 : |(0.000289 : ℝ) * Real.sin (radiansR (3 * M_of T))| ≤ 0.000289 := by
    rw [abs_mul, abs_of_nonneg (by norm_num : (0:ℝ) ≤ 0.000289)]
    calc (0.000289 : ℝ) * |Real.sin (radiansR (3 * M_of T))| ≤ 0.000289 * 1 := by
          apply mul_le_mul_of_nonneg_left s3 (by norm_num)
      _ = 0.000289 := by norm_num
  calc |(1.914602 - 0.004817 * T - 0.000014 * T * T) * Real.sin (radiansR (M_of T)) +
        (0.019993 - 0.000101 * T) * Real.sin (radiansR (2 * M_of T)) +
        0.000289 * Real.sin (radiansR (3 * M_of T))|
      ≤ |(1.914602 - 0.004817 * T - 0.000014 * T * T) * Real.sin (radiansR (M_of T))| +
        |(0.019993 - 0.000101 * T) * Real.sin (radiansR (2 * M_of T))| +
        |(0.000289 : ℝ) * Real.sin (radiansR (3 * M_of T))| := abs_add_three _ _ _
    _ ≤ 1.914602 + 0.019993 + 0.000289 := by linarith
    _ ≤ 1.9349 := by norm_num

theorem eps_rad_bounds_2025 :
    0.40908 ≤ radiansR (epsilon_of (julian_century 2025 9 3)) ∧
    radiansR (epsilon_of (julian_century 2025 9 3)) ≤ 0.40909 := by
  rw [julian_century_2025]
  unfold epsilon_of radiansR
  have hπl : (3.141592 : ℝ) < π := Real.pi_gt_d6
  have hπu : π < 3.141593 := Real.pi_lt_d6
  have hε1 : (23.438999 : ℝ) ≤ 23.439 - 0.00000036 * (9376.5 / 36525) := by norm_num
  have hε2 : (23.439 - 0.00000036 * (9376.5 / 36525) : ℝ) ≤ 23.439 := by norm_num
  constructor
  · rw [le_div_iff (by norm_num : (0:ℝ) < 180)]
    nlinarith
  · rw [div_le_iff (by norm_num : (0:ℝ) < 180)]
    nlinarith

theorem cos_eps_bounds_2025 :
    0.91632 ≤ Real.cos (radiansR (epsilon_of (julian_century 2025 9 3))) ∧
    Real.cos (radiansR (epsilon_of (julian_century 2025 9 3))) ≤ 1 := by
  obtain ⟨hl, hu⟩ := eps_rad_bounds_2025
  constructor
  · have := one_sub_sq_div_two_le_cos (radiansR (epsilon_of (julian_century 2025 9 3)))
    nlinarith
  · exact Real.cos_le_one _

theorem distortion_ineq_2025 :
    (1 - Real.sin 0.0454) / (1 + Real.sin 0.0454) ≤
      Real.cos (radiansR (epsilon_of (julian_century 2025 9 3))) := by
  have hs : (0.0453766 : ℝ) ≤ Real.sin 0.0454 := by
    have := Real.sin_gt_sub_cube (by norm_num : (0:ℝ) < 0.0454) (by norm_num : (0.0454:ℝ) ≤ 1)
    nlinarith
  have hs1 : Real.sin 0.0454 ≤ 1 := Real.sin_le_one _
  have h1 : (1 - Real.sin 0.0454) / (1 + Real.sin 0.0454) ≤ 0.9133 := by
    rw [div_le_iff (by linarith)]
    nlinarith
  have h2 := (cos_eps_bounds_2025).1
  linarith

/-- The wrapped equation of time on 2025-09-03 is at most ±0.3025 hours:
the right ascension tracks the true longitude within ≈2.6°, the equation of
center is within ±1.935°, and the `%360` / `±24` wraps cancel the whole turns. -/
theorem equation_of_2025_bound : |equation_of (julian_century 2025 9 3)| ≤ 0.3025 := by
  have hπl : (3.141592 : ℝ) < π := Real.pi_gt_d6
  have hπu : π < 3.141593 := Real.pi_lt_d6
  obtain ⟨hT1, hT2⟩ := julian_century_2025_bounds
  have hC : |C_of (julian_century 2025 9 3)| ≤ 1.9349 :=
    C_of_abs_le (by linarith) (by linarith)
  obtain ⟨hk0w, hk1⟩ := cos_eps_bounds_2025
  have hk0 : 0 < Real.cos (radiansR (epsilon_of (julian_century 2025 9 3))) := by linarith
  have hd2 : (0.0454 : ℝ) < π / 2 := by nlinarith
  obtain ⟨n, hn⟩ := atan2_scaled_bounds hk0 hk1 (by norm_num : (0:ℝ) < 0.0454) hd2
    distortion_ineq_2025 (radiansR (L_of (julian_century 2025 9 3)))
  set T0 := julian_century 2025 9 3 with hT0
  set A := degreesR (atan2
    (Real.cos (radiansR (epsilon_of T0)) * Real.sin (radiansR (L_of T0)))
    (Real.cos (radiansR (L_of T0)))) with hA
  obtain ⟨kk, hkk⟩ := pymodR_sub_eq (A + 360) 360
  have hRAdef : RA_of T0 = pymodR (A + 360) 360 := rfl
  have hRA0 : 0 ≤ RA_of T0 := by rw [hRAdef]; exact pymodR_nonneg (by norm_num) _
  have hRA360 : RA_of T0 < 360 := by rw [hRAdef]; exact pymodR_lt (by norm_num) _
  have hL0def : L0_of T0 =
      pymodR (280.46646 + 36000.76983 * T0 + 0.0003032 * T0 * T0) 360 := rfl
  have hL00 : 0 ≤ L0_of T0 := by rw [hL0def]; exact pymodR_nonneg (by norm_num) _
  have hL0360 : L0_of T0 < 360 := by rw [hL0def]; exact pymodR_lt (by norm_num) _
  have hdg : A - L_of T0 + 360 * (n : ℝ) =
      degreesR (atan2 (Real.cos (radiansR (epsilon_of T0)) * Real.sin (radiansR (L_of T0)))
          (Real.cos (radiansR (L_of T0))) -
        (radiansR (L_of T0) - (n : ℝ) * (2 * π))) := by
    rw [hA]
    unfold degreesR radiansR
    field_simp
    ring
  have h04 : (0.0454 : ℝ) ≤ 2.6015 * (π / 180) := by nlinarith
  have hE : |A - L_of T0 + 360 * (n : ℝ)| ≤ 2.6015 := by
    rw [hdg]
    exact abs_degreesR_le (by norm_num) (le_trans hn h04)
  have hEC : |(A - L_of T0 + 360 * (n : ℝ)) + C_of T0| ≤ 4.5364 := by
    calc |(A - L_of T0 + 360 * (n : ℝ)) + C_of T0|
        ≤ |A - L_of T0 + 360 * (n : ℝ)| + |C_of T0| := abs_add _ _
      _ ≤ 2.6015 + 1.9349 := by linarith
      _ ≤ 4.5364 := by norm_num
  have hLL0 : L_of T0 = L0_of T0 + C_of T0 := rfl
  have hdecomp : L0_of T0 - RA_of T0 =
      360 * ((n + kk - 1 : ℤ) : ℝ) - ((A - L_of T0 + 360 * (n : ℝ)) + C_of T0) := by
    rw [hRAdef, hkk]
    push_cast
    linarith
  obtain ⟨hECl, hECu⟩ := abs_le.mp hEC
  have hjreal : -2 < ((n + kk - 1 : ℤ) : ℝ) ∧ ((n + kk - 1 : ℤ) : ℝ) < 2 := by
    constructor <;> [nlinarith [hdecomp, hECl, hECu, hL00, hL0360, hRA0, hRA360];
      nlinarith [hdecomp, hECl, hECu, hL00, hL0360, hRA0, hRA360]]
  have hjint1 : (-2 : ℤ) < n + kk - 1 := by exact_mod_cast hjreal.1
  have hjint2 : n + kk - 1 < 2 := by exact_mod_cast hjreal.2
  have hj3 : n + kk - 1 = -1 ∨ n + kk - 1 = 0 ∨ n + kk - 1 = 1 := by omega
  have hmain : ∀ jr : ℝ,
      L0_of T0 - RA_of T0 = 360 * jr - (A - L_of T0 + 360 * (n : ℝ) + C_of T0) →
      |(L0_of T0 - RA_of T0) / 15 - 24 * jr| ≤ 0.3025 := by
    intro jr hjr
    have hrw : (L0_of T0 - RA_of T0) / 15 - 24 * jr =
        -(A - L_of T0 + 360 * (n : ℝ) + C_of T0) / 15 := by
      rw [hjr]; ring
    rw [hrw, abs_div, abs_neg, abs_of_nonneg (by norm_num : (0:ℝ) ≤ 15)]
    rw [div_le_iff (by norm_num : (0:ℝ) < 15)]
    calc |A - L_of T0 + 360 * (n : ℝ) + C_of T0| ≤ 4.5364 := hEC
      _ ≤ 0.3025 * 15 := by norm_num
  unfold equation_of eqt_raw
  rcases hj3 with hc | hc | hc <;> rw [hc] at hdecomp <;> push_cast at hdecomp
  · -- j = -1 : the raw value sits near -24, the +24 wrap applies
    have hbound := hmain (-1) (by linarith)
    obtain ⟨hbl, hbu⟩ := abs_le.mp hbound
    split_ifs with h1 h2
    · exfalso; linarith
    · rw [show (L0_of T0 - RA_of T0) / 15 + 24 =
        (L0_of T0 - RA_of T0) / 15 - 24 * (-1) by ring]
      exact hbound
    · exfalso
      apply h2
      linarith
  · -- j = 0 : no wrap
    have hbound := hmain 0 (by linarith)
    obtain ⟨hbl, hbu⟩ := abs_le.mp hbound
    split_ifs with h1 h2
    · exfalso; linarith
    · exfalso; linarith
    · rw [show (L0_of T0 - RA_of T0) / 15 =
        (L0_of T0 - RA_of T0) / 15 - 24 * 0 by ring]
      exact hbound
  · -- j = 1 : the raw value sits near +24, the -24 wrap applies
    have hbound := hmain 1 (by linarith)
    obtain ⟨hbl, hbu⟩ := abs_le.mp hbound
    split_ifs with h1 h2
    · rw [show (L0_of T0 - RA_of T0) / 15 - 24 =
        (L0_of T0 - RA_of T0) / 15 - 24 * 1 by ring]
      exact hbound
    · exfalso; linarith
    · exfalso
      have : (L0_of T0 - RA_of T0) / 15 > 12 := by linarith
      exact h1 this

theorem clamp_cos_eq_self {x : ℝ} (h1 : -1 ≤ x) (h2 : x ≤ 1) : clamp_cos x = x := by
  unfold clamp_cos
  rcases lt_or_ge 1 x with h | h
  · linarith
  · rw [if_neg (not_lt.mpr h), if_neg (not_lt.mpr h1)]

theorem arccos_ge_one_sub {c : ℝ} (h0 : 0 ≤ c) (h1 : c ≤ 1) : 1 - c ≤ arccos c := by
  have hπl : (3.141592 : ℝ) < π := Real.pi_gt_d6
  have ht2 : arccos c ≤ π / 2 := Real.arccos_le_pi_div_two.mpr h0
  have ht0 : 0 ≤ arccos c := Real.arccos_nonneg c
  have hc : Real.cos (arccos c) = c := Real.cos_arccos (by linarith) h1
  have hq := one_sub_sq_div_two_le_cos (arccos c)
  nlinarith [hq, hc]

theorem degreesR_div_15 (z : ℝ) : degreesR z / 15 = z * 12 / π := by
  unfold degreesR
  field_simp
  ring

theorem transit_2025_bounds :
    11.6975 ≤ transit_of (julian_century 2025 9 3) ∧
    transit_of (julian_century 2025 9 3) ≤ 12.3025 := by
  obtain ⟨h1, h2⟩ := abs_le.mp equation_of_2025_bound
  unfold transit_of
  constructor <;> linarith

/-- Declination on 2025-09-03: bounded by the obliquity, with sine at most
0.3992 and cosine at least 0.91632. -/
theorem decl_2025 :
    |radiansR (declination_of (julian_century 2025 9 3))| ≤ 0.40909 ∧
    |Real.sin (radiansR (declination_of (julian_century 2025 9 3)))| ≤ 0.3992 ∧
    0.91632 ≤ Real.cos (radiansR (declination_of (julian_century 2025 9 3))) ∧
    Real.cos (radiansR (declination_of (julian_century 2025 9 3))) ≤ 1 := by
  obtain ⟨hel, heu⟩ := eps_rad_bounds_2025
  have hπl : (3.141592 : ℝ) < π := Real.pi_gt_d6
  set T0 := julian_century 2025 9 3 with hT0
  set er := radiansR (epsilon_of T0) with her
  have hrd : radiansR (declination_of T0) =
      arcsin (Real.sin er * Real.sin (radiansR (L_of T0))) := by
    unfold declination_of
    rw [radiansR_degreesR]
  set s := Real.sin er * Real.sin (radiansR (L_of T0)) with hs
  have hsin_er_nonneg : 0 ≤ Real.sin er :=
    Real.sin_nonneg_of_nonneg_of_le_pi (by linarith) (by linarith)
  have hser : Real.sin er ≤ 0.3992 := by
    have habs : |er| ≤ 1 := by rw [abs_le]; constructor <;> linarith
    have ht := sin_le_taylor habs
    have h0 : (0 : ℝ) ≤ er := by linarith
    have h2u : er ^ 2 ≤ 0.16735471 := by nlinarith
    have h2l : 0.1673464 ≤ er ^ 2 := by nlinarith
    have h3l : 0.068457 ≤ er ^ 3 := by nlinarith [mul_le_mul_of_nonneg_right h2l h0]
    have h4u : er ^ 4 ≤ 0.0280077 := by nlinarith [sq_nonneg (er ^ 2 - 0.16735471)]
    nlinarith [ht]
  have hser1 : Real.sin er ≤ 1 := Real.sin_le_one _
  have hsabs : |s| ≤ Real.sin er := by
    rw [hs, abs_mul]
    calc |Real.sin er| * |Real.sin (radiansR (L_of T0))| ≤ |Real.sin er| * 1 :=
          mul_le_mul_of_nonneg_left (Real.abs_sin_le_one _) (abs_nonneg _)
      _ = Real.sin er := by rw [mul_one, abs_of_nonneg hsin_er_nonneg]
  have hs1 : |s| ≤ 1 := le_trans hsabs hser1
  obtain ⟨hs1l, hs1u⟩ := abs_le.mp hs1
  obtain ⟨hsl, hsu⟩ := abs_le.mp hsabs
  have harcsin_bound : |arcsin s| ≤ er := by
    rw [abs_le]
    constructor
    · have h1 : arcsin (-(Real.sin er)) ≤ arcsin s := Real.monotone_arcsin (by linarith)
      have h2 : arcsin (-(Real.sin er)) = -er := by
        rw [← Real.sin_neg]
        exact Real.arcsin_sin (by linarith) (by linarith)
      linarith
    · have h1 : arcsin s ≤ arcsin (Real.sin er) := Real.monotone_arcsin (by linarith)
      have h2 : arcsin (Real.sin er) = er := Real.arcsin_sin (by linarith) (by linarith)
      linarith
  obtain ⟨hal, hau⟩ := abs_le.mp harcsin_bound
  refine ⟨?_, ?_, ?_, ?_⟩
  · rw [hrd, abs_le]
    constructor <;> linarith
  · rw [hrd, Real.sin_arcsin hs1l hs1u, abs_le]
    constructor <;> linarith
  · rw [hrd]
    have h1 : |arcsin s| ≤ 0.40909 := le_trans harcsin_bound heu
    have h2 : Real.cos (arcsin s) = Real.cos |arcsin s| := (Real.cos_abs _).symm
    rw [h2]
    have h3 : Real.cos (0.40909 : ℝ) ≤ Real.cos |arcsin s| :=
      Real.cos_le_cos_of_nonneg_of_le_pi (abs_nonneg _) (by linarith) h1
    have h4 := one_sub_sq_div_two_le_cos (0.40909 : ℝ)
    nlinarith
  · rw [hrd]
    exact Real.cos_le_one _

theorem hours_pair_fst (lon tz x : ℝ) :
    (hours_to_time_pair lon tz x).1 = ⌊pymodR (x + -lon / 15 + tz) 24⌋ := rfl

theorem hours_pair_snd (lon tz x : ℝ) :
    (hours_to_time_pair lon tz x).2 =
      ⌊(pymodR (x + -lon / 15 + tz) 24 -
        ((⌊pymodR (x + -lon / 15 + tz) 24⌋ : ℤ) : ℝ)) * 60⌋ := rfl

theorem sin_sunrise_angle_bounds :
    -0.014539 ≤ Real.sin (radiansR (-0.833)) ∧ Real.sin (radiansR (-0.833)) ≤ -0.014537 := by
  have hy : radiansR (-0.833) = -(0.833 * π / 180) := by unfold radiansR; ring
  rw [hy, Real.sin_neg]
  have h1 : (0.0145385 : ℝ) ≤ 0.833 * π / 180 := by
    nlinarith [Real.pi_gt_d6]
  have h2 : (0.833 : ℝ) * π / 180 ≤ 0.0145387 := by
    nlinarith [Real.pi_lt_d6]
  have habs : |(0.833 : ℝ) * π / 180| ≤ 1 := by rw [abs_le]; constructor <;> linarith
  constructor
  · have hs := sin_le_self_of_nonneg (by linarith : (0:ℝ) ≤ 0.833 * π / 180)
    linarith
  · have hs := taylor_le_sin habs
    have h0 : (0 : ℝ) ≤ 0.833 * π / 180 := by linarith
    have hx2 : (0.833 * π / 180) ^ 2 ≤ 0.00021138 := by nlinarith
    have h3u : (0.833 * π / 180) ^ 3 ≤ 0.0000031 := by
      nlinarith [mul_le_mul hx2 h2 h0 (by norm_num : (0:ℝ) ≤ 0.00021138)]
    have h4u : (0.833 * π / 180) ^ 4 ≤ 0.00000005 := by
      nlinarith [mul_le_mul hx2 hx2 (sq_nonneg (0.833 * π / 180))
        (by norm_num : (0:ℝ) ≤ 0.00021138)]
    nlinarith

/-- At the equator on 2025-09-03, sunset is between 6 and 6.062 hours after
transit (the −0.833° crossing is just past the exact quarter-turn). -/
theorem zero_lat_sunset_bounds :
    transit_of (julian_century 2025 9 3) + 6 ≤ sunset_hours 0 (julian_century 2025 9 3) ∧
    sunset_hours 0 (julian_century 2025 9 3) ≤ transit_of (julian_century 2025 9 3) + 6.062 := by
  have hπl : (3.141592 : ℝ) < π := Real.pi_gt_d6
  have hπ0 := Real.pi_pos
  obtain ⟨hd1, hd2, hd3, hd4⟩ := decl_2025
  obtain ⟨hangl, hangu⟩ := sin_sunrise_angle_bounds
  set T0 := julian_century 2025 9 3 with hT0
  have h00 : radiansR 0 = 0 := by unfold radiansR; ring
  have hch : cos_hour_angle 0 (-0.833) (declination_of T0) =
      Real.sin (radiansR (-0.833)) / Real.cos (radiansR (declination_of T0)) := by
    unfold cos_hour_angle
    rw [h00, Real.sin_zero, Real.cos_zero]
    ring_nf
  set cδ := Real.cos (radiansR (declination_of T0)) with hcδ
  have hc_lb : -0.0159 ≤ cos_hour_angle 0 (-0.833) (declination_of T0) := by
    rw [hch, le_div_iff (by linarith : (0:ℝ) < cδ)]
    nlinarith
  have hc_ub : cos_hour_angle 0 (-0.833) (declination_of T0) ≤ -0.014537 := by
    rw [hch, div_le_iff (by linarith : (0:ℝ) < cδ)]
    nlinarith
  have hclamp : clamp_cos (cos_hour_angle 0 (-0.833) (declination_of T0)) =
      cos_hour_angle 0 (-0.833) (declination_of T0) :=
    clamp_cos_eq_self (by linarith) (by linarith)
  set c := cos_hour_angle 0 (-0.833) (declination_of T0) with hc
  have harc_lb : π / 2 ≤ arccos c := by
    apply le_arccos_of_le_cos (by linarith) (by linarith)
    rw [Real.cos_pi_div_two]
    linarith
  have harc_ub : arccos c ≤ π / 2 + 0.01607 := by
    have h1 : arccos c = π / 2 + arcsin (-c) := by
      rw [Real.arccos_eq_pi_div_two_sub_arcsin]
      rw [show c = -(-c) by ring, Real.arcsin_neg]
      ring_nf
    rw [h1]
    have h2 : arcsin (-c) ≤ 0.01607 := by
      apply arcsin_le_of_mul (by linarith) (by norm_num : (0:ℝ) < 0.99)
      · nlinarith
      · nlinarith
    linarith
  have hsunset : sunset_hours 0 T0 =
      transit_of T0 + degreesR (arccos (clamp_cos c)) / 15 := rfl
  rw [hsunset, hclamp, degreesR_div_15]
  have h6 : (6 : ℝ) ≤ arccos c * 12 / π := by
    rw [le_div_iff hπ0]
    linarith
  have h62 : arccos c * 12 / π ≤ 6.062 := by
    rw [div_le_iff hπ0]
    nlinarith
  constructor <;> linarith

/-- At (latitude 0, longitude 180, timezone −4) on 2025-09-03 the formatted
clock time of Maghrib (≤ 02:24) precedes that of Dhuhr (≥ 19:41). -/
theorem zero_instance_minutes :
    1181 ≤ (hours_to_time_pair 180 (-4) (transit_of (julian_century 2025 9 3))).1 * 60 +
      (hours_to_time_pair 180 (-4) (transit_of (julian_century 2025 9 3))).2 ∧
    (hours_to_time_pair 180 (-4) (maghrib_hours 0 (julian_century 2025 9 3))).1 * 60 +
      (hours_to_time_pair 180 (-4) (maghrib_hours 0 (julian_century 2025 9 3))).2 ≤ 144 := by
  obtain ⟨htl, htu⟩ := transit_2025_bounds
  obtain ⟨hsl, hsu⟩ := zero_lat_sunset_bounds
  have hm : maghrib_hours 0 (julian_century 2025 9 3) =
      sunset_hours 0 (julian_century 2025 9 3) + 3 / 60 := rfl
  constructor
  · rw [hours_pair_minutes]
    have hpy : pymodR (transit_of (julian_century 2025 9 3) + -(180 : ℝ) / 15 + (-4)) 24 =
        transit_of (julian_century 2025 9 3) + -(180 : ℝ) / 15 + (-4) + 24 :=
      pymodR_eq_add (by norm_num) (by norm_num; linarith) (by norm_num; linarith)
    rw [hpy]
    apply Int.le_floor.mpr
    push_cast
    norm_num
    linarith
  · rw [hours_pair_minutes]
    have hpy : pymodR (maghrib_hours 0 (julian_century 2025 9 3) + -(180 : ℝ) / 15 + (-4)) 24 =
        maghrib_hours 0 (julian_century 2025 9 3) + -(180 : ℝ) / 15 + (-4) :=
      pymodR_eq_self (by norm_num) (by norm_num; linarith) (by norm_num; linarith)
    rw [hpy]
    have h145 : ⌊(60 : ℝ) * (maghrib_hours 0 (julian_century 2025 9 3) +
        -(180 : ℝ) / 15 + (-4))⌋ < 145 := by
      apply Int.floor_lt.mpr
      push_cast
      norm_num
      linarith
    omega

/-- At the Tampa configuration on 2025-09-03, the Dhuhr entry lands at 13:11 to
13:47 local time — strictly after the claimed 13:00–13:10 window. -/
theorem tampa_dhuhr_pair :
    (hours_to_time_pair (-82.4572) (-4) (transit_of (julian_century 2025 9 3))).1 = 13 ∧
    11 ≤ (hours_to_time_pair (-82.4572) (-4) (transit_of (julian_century 2025 9 3))).2 ∧
    (hours_to_time_pair (-82.4572) (-4) (transit_of (julian_century 2025 9 3))).2 ≤ 47 := by
  obtain ⟨htl, htu⟩ := transit_2025_bounds
  have hlb : (13.19464 : ℝ) ≤ transit_of (julian_century 2025 9 3) +
      -(-82.4572 : ℝ) / 15 + (-4) := by
    norm_num
    linarith
  have hub : transit_of (julian_century 2025 9 3) + -(-82.4572 : ℝ) / 15 + (-4) ≤ 13.79966 := by
    norm_num
    linarith
  have hpy : pymodR (transit_of (julian_century 2025 9 3) + -(-82.4572 : ℝ) / 15 + (-4)) 24 =
      transit_of (julian_century 2025 9 3) + -(-82.4572 : ℝ) / 15 + (-4) :=
    pymodR_eq_self (by norm_num) (by linarith) (by linarith)
  have hfloor : ⌊pymodR (transit_of (julian_century 2025 9 3) +
      -(-82.4572 : ℝ) / 15 + (-4)) 24⌋ = 13 := by
    rw [hpy]
    apply Int.floor_eq_iff.mpr
    constructor
    · push_cast; linarith
    · push_cast; linarith
  refine ⟨?_, ?_, ?_⟩
  · rw [hours_pair_fst, hfloor]
  · rw [hours_pair_snd, hfloor]
    apply Int.le_floor.mpr
    rw [hpy]
    push_cast
    linarith
  · rw [hours_pair_snd, hfloor]
    have h48 : ⌊(pymodR (transit_of (julian_century 2025 9 3) +
        -(-82.4572 : ℝ) / 15 + (-4)) 24 - ((13 : ℤ) : ℝ)) * 60⌋ < 48 := by
      apply Int.floor_lt.mpr
      rw [hpy]
      push_cast
      linarith
    omega

/-- Sine and cosine of the Tampa latitude (27.9506° ≈ 0.48783 rad). -/
theorem tampa_trig :
    0.4655 ≤ Real.sin (radiansR 27.9506) ∧ Real.sin (radiansR 27.9506) ≤ 0.47144 ∧
    0.881 ≤ Real.cos (radiansR 27.9506) ∧ Real.cos (radiansR 27.9506) ≤ 0.88397 := by
  have h1 : (0.4878298 : ℝ) ≤ radiansR 27.9506 := by
    unfold radiansR
    nlinarith [Real.pi_gt_d6]
  have h2 : radiansR 27.9506 ≤ 0.4878301 := by
    unfold radiansR
    nlinarith [Real.pi_lt_d6]
  have h0 : (0 : ℝ) ≤ radiansR 27.9506 := by linarith
  have habs : |radiansR 27.9506| ≤ 1 := by rw [abs_le]; constructor <;> linarith
  have hx2l : (0.2379778 : ℝ) ≤ radiansR 27.9506 ^ 2 := by nlinarith
  have hx2u : radiansR 27.9506 ^ 2 ≤ 0.2379783 := by nlinarith
  have hx3l : (0.1160888 : ℝ) ≤ radiansR 27.9506 ^ 3 := by
    nlinarith [mul_le_mul hx2l h1 (by norm_num : (0:ℝ) ≤ 0.4878298) (by nlinarith)]
  have hx3u : radiansR 27.9506 ^ 3 ≤ 0.1160930 := by
    nlinarith [mul_le_mul hx2u h2 h0 (by norm_num : (0:ℝ) ≤ 0.2379783)]
  have hx4u : radiansR 27.9506 ^ 4 ≤ 0.0566337 := by
    nlinarith [mul_le_mul hx2u hx2u (sq_nonneg (radiansR 27.9506))
      (by norm_num : (0:ℝ) ≤ 0.2379783)]
  refine ⟨?_, ?_, ?_, ?_⟩
  · have := taylor_le_sin habs
    nlinarith
  · have := sin_le_taylor habs
    nlinarith
  · have := one_sub_sq_div_two_le_cos (radiansR 27.9506)
    nlinarith
  · have := cos_le_taylor habs
    nlinarith

/-- Sine of the −15° Fajr/Isha altitude angle. -/
theorem sin_fajr_angle_bounds :
    -0.25906 ≤ Real.sin (radiansR (-15)) ∧ Real.sin (radiansR (-15)) ≤ -0.25856 := by
  have hy : radiansR (-15) = -(15 * π / 180) := by unfold radiansR; ring
  rw [hy, Real.sin_neg]
  have h1 : (0.2617993 : ℝ) ≤ 15 * π / 180 := by nlinarith [Real.pi_gt_d6]
  have h2 : (15 : ℝ) * π / 180 ≤ 0.2617995 := by nlinarith [Real.pi_lt_d6]
  have h0 : (0 : ℝ) ≤ 15 * π / 180 := by linarith
  have habs : |(15 : ℝ) * π / 180| ≤ 1 := by rw [abs_le]; constructor <;> linarith
  have hx2l : (0.0685388 : ℝ) ≤ (15 * π / 180 : ℝ) ^ 2 := by nlinarith
  have hx2u : ((15 : ℝ) * π / 180) ^ 2 ≤ 0.068539 := by nlinarith
  have hx3l : (0.0179431 : ℝ) ≤ ((15 : ℝ) * π / 180) ^ 3 := by
    nlinarith [mul_le_mul hx2l h1 (by norm_num : (0:ℝ) ≤ 0.2617993) (by nlinarith)]
  have hx3u : ((15 : ℝ) * π / 180) ^ 3 ≤ 0.0179437 := by
    nlinarith [mul_le_mul hx2u h2 h0 (by norm_num : (0:ℝ) ≤ 0.068539)]
  have hx4u : ((15 : ℝ) * π / 180) ^ 4 ≤ 0.0046976 := by
    nlinarith [mul_le_mul hx2u hx2u (sq_nonneg ((15 : ℝ) * π / 180))
      (by norm_num : (0:ℝ) ≤ 0.068539)]
  constructor
  · have := sin_le_taylor habs
    nlinarith
  · have := taylor_le_sin habs
    nlinarith

/-- Bounds for the clamped-acos arguments of Fajr/Isha (−15°) and
Sunrise/Sunset (−0.833°) at the Tampa latitude on 2025-09-03. -/
theorem tampa_chour_bounds :
    -0.5541 ≤ cos_hour_angle 27.9506 (-15) (declination_of (julian_century 2025 9 3)) ∧
    cos_hour_angle 27.9506 (-15) (declination_of (julian_century 2025 9 3)) ≤ -0.0795 ∧
    -0.2512 ≤ cos_hour_angle 27.9506 (-0.833) (declination_of (julian_century 2025 9 3)) ∧
    cos_hour_angle 27.9506 (-0.833) (declination_of (julian_century 2025 9 3)) ≤ 0.2152 ∧
    0.276 ≤ cos_hour_angle 27.9506 (-0.833) (declination_of (julian_century 2025 9 3)) -
      cos_hour_angle 27.9506 (-15) (declination_of (julian_century 2025 9 3)) := by
  obtain ⟨hd1, hd2, hd3, hd4⟩ := decl_2025
  obtain ⟨hs15l, hs15u⟩ := sin_fajr_angle_bounds
  obtain ⟨hs833l, hs833u⟩ := sin_sunrise_angle_bounds
  obtain ⟨hsφl, hsφu, hcφl, hcφu⟩ := tampa_trig
  set T0 := julian_century 2025 9 3 with hT0
  set sδ := Real.sin (radiansR (declination_of T0)) with hsδ
  set cδ := Real.cos (radiansR (declination_of T0)) with hcδ
  set sφ := Real.sin (radiansR 27.9506) with hsφ
  set cφ := Real.cos (radiansR 27.9506) with hcφ
  obtain ⟨hsδl, hsδu⟩ := abs_le.mp hd2
  have hden_l : (0.80727 : ℝ) ≤ cδ * cφ := by nlinarith
  have hden_u : cδ * cφ ≤ 0.88397 := by nlinarith
  have hden_pos : (0 : ℝ) < cδ * cφ := by nlinarith
  have hprod_l : -(0.1882 : ℝ) ≤ sδ * sφ := by nlinarith
  have hprod_u : sδ * sφ ≤ 0.1882 := by nlinarith
  have hcf : cos_hour_angle 27.9506 (-15) (declination_of T0) =
      (Real.sin (radiansR (-15)) - sδ * sφ) / (cδ * cφ) := rfl
  have hcs : cos_hour_angle 27.9506 (-0.833) (declination_of T0) =
      (Real.sin (radiansR (-0.833)) - sδ * sφ) / (cδ * cφ) := rfl
  refine ⟨?_, ?_, ?_, ?_, ?_⟩
  · rw [hcf, le_div_iff hden_pos]; nlinarith
  · rw [hcf, div_le_iff hden_pos]; nlinarith
  · rw [hcs, le_div_iff hden_pos]; nlinarith
  · rw [hcs, div_le_iff hden_pos]; nlinarith
  · rw [hcf, hcs, div_sub_div_same, le_div_iff hden_pos]; nlinarith

theorem le_sin_arctan {r t : ℝ} (ht : 0 ≤ t) (hr : 0 ≤ r) (h : t ^ 2 * (1 + r ^ 2) ≤ r ^ 2) :
    t ≤ Real.sin (arctan r) := by
  rw [Real.sin_arctan]
  have hs0 : (0 : ℝ) < 1 + r ^ 2 := by positivity
  rw [le_div_iff (Real.sqrt_pos.mpr hs0)]
  have h1 : t * Real.sqrt (1 + r ^ 2) = Real.sqrt (t ^ 2 * (1 + r ^ 2)) := by
    rw [Real.sqrt_mul (sq_nonneg t), Real.sqrt_sq ht]
  rw [h1]
  calc Real.sqrt (t ^ 2 * (1 + r ^ 2)) ≤ Real.sqrt (r ^ 2) := Real.sqrt_le_sqrt h
    _ = r := Real.sqrt_sq hr

theorem sin_arctan_le_self {r : ℝ} (hr : 0 ≤ r) : Real.sin (arctan r) ≤ r := by
  rw [Real.sin_arctan]
  apply div_le_self hr
  calc (1 : ℝ) = Real.sqrt 1 := Real.sqrt_one.symm
    _ ≤ Real.sqrt (1 + r ^ 2) := Real.sqrt_le_sqrt (by nlinarith [sq_nonneg r])

theorem radiansR_abs (x : ℝ) : radiansR |x| = |radiansR x| := by
  unfold radiansR
  rw [abs_div, abs_mul, abs_of_pos Real.pi_pos,
    abs_of_nonneg (by norm_num : (0:ℝ) ≤ 180)]
theorem interval_prod_lo {a b : ℝ} (ha : 0.91632 ≤ a) (hb : 0.881 ≤ b) :
    0.80727 ≤ a * b := by nlinarith

theorem interval_prod_hi {a b : ℝ} (ha1 : 0.91632 ≤ a) (ha2 : a ≤ 1)
    (_hb1 : 0.881 ≤ b) (hb2 : b ≤ 0.88397) : a * b ≤ 0.88397 := by nlinarith

theorem abs_prod_le {x y : ℝ} (hx : |x| ≤ 0.3992) (hy : |y| ≤ 0.47144) :
    |x * y| ≤ 0.1882 := by
  rw [abs_mul]
  nlinarith [abs_nonneg x, abs_nonneg y]

theorem asr_sq_cond {r : ℝ} (hr : 0.4103 ≤ r) :
    (0.3795 : ℝ) ^ 2 * (1 + r ^ 2) ≤ r ^ 2 := by nlinarith

theorem sin_add_cos_le_sqrt_two {s c : ℝ} (h : s ^ 2 + c ^ 2 = 1) :
    c + s ≤ 1.41422 := by
  nlinarith [sq_nonneg (s - c), sq_nonneg (s + c - 1.41422)]

theorem two_mul_lower {a b : ℝ} (ha : 0.039354 ≤ a) (hb : 0.46390 ≤ b) :
    (0.036512 : ℝ) ≤ 2 * a * b := by nlinarith

theorem cos_mul_gap_bound {c P : ℝ} (hc : 0.56406 ≤ c) (hP1 : 0.036512 ≤ P - 1)
    (_hP2 : P ≤ 1.41422) : 0.01455 * P ≤ c * (P - 1) := by nlinarith

set_option maxHeartbeats 1600000 in
/-- Bounds for the clamped-acos argument of the Asr computation at the Tampa
latitude on 2025-09-03. -/
theorem tampa_asr_bounds :
    0.2163 ≤ cos_hour_angle 27.9506
        (asr_angle_of 27.9506 (declination_of (julian_century 2025 9 3)) 1)
        (declination_of (julian_century 2025 9 3)) ∧
    cos_hour_angle 27.9506
        (asr_angle_of 27.9506 (declination_of (julian_century 2025 9 3)) 1)
        (declination_of (julian_century 2025 9 3)) ≤ 0.9836 := by
  have hπl : (3.141592 : ℝ) < π := Real.pi_gt_d6
  have hπu : π < 3.141593 := Real.pi_lt_d6
  obtain ⟨hd1, hd2, hd3, hd4⟩ := decl_2025
  obtain ⟨hsφl, hsφu, hcφl, hcφu⟩ := tampa_trig
  have hφ1 : (0.4878298 : ℝ) ≤ radiansR 27.9506 := by
    unfold radiansR; nlinarith
  have hφ2 : radiansR 27.9506 ≤ 0.4878301 := by
    unfold radiansR; nlinarith
  obtain ⟨hδl, hδu⟩ := abs_le.mp hd1
  set T0 := julian_century 2025 9 3 with hT0
  set δr := radiansR (declination_of T0) with hδr
  set φr := radiansR 27.9506 with hφr
  have hu_l : (0.0787398 : ℝ) ≤ φr - δr := by linarith
  have hu_u : φr - δr ≤ 0.8969201 := by linarith
  have hu_pos : (0 : ℝ) < φr - δr := by linarith
  have huπ2 : φr - δr < π / 2 := by linarith
  have habs_arg : radiansR |27.9506 - declination_of T0| = φr - δr := by
    rw [radiansR_abs]
    have h1 : radiansR (27.9506 - declination_of T0) = φr - δr := by
      rw [hφr, hδr]; unfold radiansR; ring
    rw [h1, abs_of_pos hu_pos]
  have hcosu_pos : 0 < Real.cos (φr - δr) :=
    Real.cos_pos_of_mem_Ioo ⟨by linarith, huπ2⟩
  have hsinu_pos : 0 < Real.sin (φr - δr) :=
    Real.sin_pos_of_pos_of_lt_pi hu_pos (by linarith)
  have hsinu_u : Real.sin (φr - δr) ≤ 0.81037 := by
    have h1 : Real.sin (φr - δr) ≤ Real.sin 0.8969201 :=
      Real.sin_le_sin_of_le_of_le_pi_div_two (by linarith) (by linarith) hu_u
    have h2 := sin_le_taylor (show |(0.8969201 : ℝ)| ≤ 1 by rw [abs_le]; norm_num)
    norm_num at h2
    linarith
  have hcosu_l : (0.56406 : ℝ) ≤ Real.cos (φr - δr) := by
    have h1 : Real.cos 0.8969201 ≤ Real.cos (φr - δr) :=
      Real.cos_le_cos_of_nonneg_of_le_pi (by linarith) (by linarith) hu_u
    have h2 := taylor_le_cos (show |(0.8969201 : ℝ)| ≤ 1 by rw [abs_le]; norm_num)
    norm_num at h2
    linarith
  have htanu_l : (0.0787398 : ℝ) ≤ Real.tan (φr - δr) := by
    have := Real.lt_tan hu_pos huπ2
    linarith
  have htanu_u : Real.tan (φr - δr) ≤ 1.4367 := by
    rw [Real.tan_eq_sin_div_cos, div_le_iff hcosu_pos]
    linarith
  have htanu_pos : (0 : ℝ) < 1 + Real.tan (φr - δr) := by linarith
  set r := 1 / (1 + Real.tan (φr - δr)) with hr
  have hr_l : (0.4103 : ℝ) ≤ r := by
    rw [hr, le_div_iff htanu_pos]; linarith
  have hr_u : r ≤ 0.92701 := by
    rw [hr, div_le_iff htanu_pos]; linarith
  have hr_pos : (0 : ℝ) ≤ r := by linarith
  have hsar_l : (0.3795 : ℝ) ≤ Real.sin (arctan r) :=
    le_sin_arctan (by norm_num) hr_pos (asr_sq_cond hr_l)
  have hsar_u : Real.sin (arctan r) ≤ r := sin_arctan_le_self hr_pos
  have hangle : radiansR (asr_angle_of 27.9506 (declination_of T0) 1) = arctan r := by
    unfold asr_angle_of
    rw [radiansR_degreesR, habs_arg]
  have hca : cos_hour_angle 27.9506 (asr_angle_of 27.9506 (declination_of T0) 1)
      (declination_of T0) =
      (Real.sin (arctan r) - Real.sin δr * Real.sin φr) /
        (Real.cos δr * Real.cos φr) := by
    unfold cos_hour_angle
    rw [hangle]
  have hden_l : (0.80727 : ℝ) ≤ Real.cos δr * Real.cos φr :=
    interval_prod_lo hd3 hcφl
  have hden_u : Real.cos δr * Real.cos φr ≤ 0.88397 :=
    interval_prod_hi hd3 hd4 hcφl hcφu
  have hden_pos : (0 : ℝ) < Real.cos δr * Real.cos φr := by linarith
  have hprod := abs_prod_le hd2 (show |Real.sin φr| ≤ 0.47144 by
    rw [abs_le]; constructor <;> linarith)
  obtain ⟨hprod_l, hprod_u⟩ := abs_le.mp hprod
  constructor
  · rw [hca, le_div_iff hden_pos]
    linarith
  · rw [hca, div_le_iff hden_pos]
    have hcosu_id : Real.cos (φr - δr) =
        Real.cos φr * Real.cos δr + Real.sin φr * Real.sin δr := Real.cos_sub φr δr
    have hP_u : Real.cos (φr - δr) + Real.sin (φr - δr) ≤ 1.41422 :=
      sin_add_cos_le_sqrt_two (Real.sin_sq_add_cos_sq (φr - δr))
    have hP_pos : (0 : ℝ) < Real.cos (φr - δr) + Real.sin (φr - δr) := by linarith
    have hPne : Real.cos (φr - δr) + Real.sin (φr - δr) ≠ 0 := ne_of_gt hP_pos
    have hcne : Real.cos (φr - δr) ≠ 0 := ne_of_gt hcosu_pos
    have hr_eq : r = Real.cos (φr - δr) / (Real.cos (φr - δr) + Real.sin (φr - δr)) := by
      rw [hr, Real.tan_eq_sin_div_cos]
      rw [show 1 + Real.sin (φr - δr) / Real.cos (φr - δr) =
          (Real.cos (φr - δr) + Real.sin (φr - δr)) / Real.cos (φr - δr) by
        field_simp]
      rw [one_div_div]
    have hid : Real.sin (φr - δr) + Real.cos (φr - δr) - 1 =
        2 * Real.sin ((φr - δr) / 2) *
          (Real.cos ((φr - δr) / 2) - Real.sin ((φr - δr) / 2)) := by
      have hs2 := Real.sin_two_mul ((φr - δr) / 2)
      have hc2 := Real.cos_two_mul ((φr - δr) / 2)
      have hsc := Real.sin_sq_add_cos_sq ((φr - δr) / 2)
      have h2u : 2 * ((φr - δr) / 2) = φr - δr := by ring
      rw [h2u] at hs2 hc2
      linarith [hs2, hc2, hsc]
    have hhalf_l : (0.039354 : ℝ) ≤ Real.sin ((φr - δr) / 2) := by
      have h1 : Real.sin 0.0393699 ≤ Real.sin ((φr - δr) / 2) :=
        Real.sin_le_sin_of_le_of_le_pi_div_two (by linarith) (by linarith) (by linarith)
      have h2 := Real.sin_gt_sub_cube (by norm_num : (0:ℝ) < 0.0393699)
        (by norm_num : (0.0393699 : ℝ) ≤ 1)
      norm_num at h2
      linarith
    have hdiff_l : (0.46390 : ℝ) ≤
        Real.cos ((φr - δr) / 2) - Real.sin ((φr - δr) / 2) := by
      have h1 : Real.cos 0.4484601 ≤ Real.cos ((φr - δr) / 2) :=
        Real.cos_le_cos_of_nonneg_of_le_pi (by linarith) (by linarith) (by linarith)
      have h2 : Real.sin ((φr - δr) / 2) ≤ Real.sin 0.4484601 :=
        Real.sin_le_sin_of_le_of_le_pi_div_two (by linarith) (by linarith) (by linarith)
      have h3 := one_sub_sq_div_two_le_cos (0.4484601 : ℝ)
      have h4 := sin_le_taylor (show |(0.4484601 : ℝ)| ≤ 1 by rw [abs_le]; norm_num)
      norm_num at h3 h4
      linarith
    have hsum_id : (0.036512 : ℝ) ≤
        Real.cos (φr - δr) + Real.sin (φr - δr) - 1 := by
      have := two_mul_lower hhalf_l hdiff_l
      linarith [hid]
    have hcos_sub_r : (0.01455 : ℝ) ≤ Real.cos (φr - δr) - r := by
      rw [hr_eq,
        show Real.cos (φr - δr) -
            Real.cos (φr - δr) / (Real.cos (φr - δr) + Real.sin (φr - δr)) =
          Real.cos (φr - δr) *
              ((Real.cos (φr - δr) + Real.sin (φr - δr)) - 1) /
            (Real.cos (φr - δr) + Real.sin (φr - δr)) by field_simp; ring]
      rw [le_div_iff hP_pos]
      exact cos_mul_gap_bound hcosu_l (by linarith) hP_u
    linarith [hsar_u, hcos_sub_r, hcosu_id, hden_u]

set_option maxHeartbeats 1600000 in
/-- Decimal-hour ordering gaps of the six Tampa/ISNA prayer times on
2025-09-03: each consecutive gap is at least 0.0338 hours (two minutes), and
all times stay inside (0, 24) even after the longitude/timezone shift. -/
theorem tampa_hour_bounds :
    fajr_hours 27.9506 (methods_lookup "ISNA") (julian_century 2025 9 3) + 1.054 ≤
      sunrise_hours 27.9506 (julian_century 2025 9 3) ∧
    sunrise_hours 27.9506 (julian_century 2025 9 3) + 5.1577 ≤
      transit_of (julian_century 2025 9 3) ∧
    transit_of (julian_century 2025 9 3) + 0.0626 ≤
      asr_hours 27.9506 1 (julian_century 2025 9 3) ∧
    asr_hours 27.9506 1 (julian_century 2025 9 3) + 0.0338 ≤
      maghrib_hours 27.9506 (julian_century 2025 9 3) ∧
    maghrib_hours 27.9506 (julian_century 2025 9 3) + 1.004 ≤
      isha_hours 27.9506 (methods_lookup "ISNA") (julian_century 2025 9 3) ∧
    3.15 ≤ fajr_hours 27.9506 (methods_lookup "ISNA") (julian_century 2025 9 3) ∧
    isha_hours 27.9506 (methods_lookup "ISNA") (julian_century 2025 9 3) ≤ 20.846 := by
  have hπ0 := Real.pi_pos
  have hπl : (3.141592 : ℝ) < π := Real.pi_gt_d6
  have hπu : π < 3.141593 := Real.pi_lt_d6
  obtain ⟨htl, htu⟩ := transit_2025_bounds
  obtain ⟨hcf_l, hcf_u, hcs_l, hcs_u, hgap⟩ := tampa_chour_bounds
  obtain ⟨hca_l, hca_u⟩ := tampa_asr_bounds
  set T0 := julian_century 2025 9 3 with hT0
  set cf := cos_hour_angle 27.9506 (-15) (declination_of T0) with hcf
  set cs := cos_hour_angle 27.9506 (-0.833) (declination_of T0) with hcs
  set ca := cos_hour_angle 27.9506
      (asr_angle_of 27.9506 (declination_of T0) 1) (declination_of T0) with hca
  have hm : methods_lookup "ISNA" = ⟨15, 15⟩ := by simp [methods_lookup]
  rw [hm]
  have hclf : clamp_cos cf = cf := clamp_cos_eq_self (by linarith) (by linarith)
  have hcls : clamp_cos cs = cs := clamp_cos_eq_self (by linarith) (by linarith)
  have hcla : clamp_cos ca = ca := clamp_cos_eq_self (by linarith) (by linarith)
  have hF : fajr_hours 27.9506 ⟨15, 15⟩ T0 = transit_of T0 - arccos cf * 12 / π := by
    have h0 : fajr_hours 27.9506 ⟨15, 15⟩ T0 =
        transit_of T0 - degreesR (arccos (clamp_cos
          (cos_hour_angle 27.9506 (-(((15 : ℚ) : ℝ))) (declination_of T0)))) / 15 := rfl
    rw [h0, show (-(((15 : ℚ) : ℝ))) = ((-15 : ℝ)) from by norm_num, ← hcf,
      hclf, degreesR_div_15]
  have hS : sunrise_hours 27.9506 T0 = transit_of T0 - arccos cs * 12 / π := by
    have h0 : sunrise_hours 27.9506 T0 =
        transit_of T0 - degreesR (arccos (clamp_cos
          (cos_hour_angle 27.9506 (-0.833) (declination_of T0)))) / 15 := rfl
    rw [h0, ← hcs, hcls, degreesR_div_15]
  have hSS : sunset_hours 27.9506 T0 = transit_of T0 + arccos cs * 12 / π := by
    have h0 : sunset_hours 27.9506 T0 =
        transit_of T0 + degreesR (arccos (clamp_cos
          (cos_hour_angle 27.9506 (-0.833) (declination_of T0)))) / 15 := rfl
    rw [h0, ← hcs, hcls, degreesR_div_15]
  have hM : maghrib_hours 27.9506 T0 = transit_of T0 + arccos cs * 12 / π + 3 / 60 := by
    have h0 : maghrib_hours 27.9506 T0 = sunset_hours 27.9506 T0 + 3 / 60 := rfl
    rw [h0, hSS]
  have hA : asr_hours 27.9506 1 T0 = transit_of T0 + arccos ca * 12 / π := by
    have h0 : asr_hours 27.9506 1 T0 =
        transit_of T0 + degreesR (arccos (clamp_cos
          (cos_hour_angle 27.9506 (asr_angle_of 27.9506 (declination_of T0) 1)
            (declination_of T0)))) / 15 := rfl
    rw [h0, ← hca, hcla, degreesR_div_15]
  have hI : isha_hours 27.9506 ⟨15, 15⟩ T0 = transit_of T0 + arccos cf * 12 / π := by
    have h0 : isha_hours 27.9506 ⟨15, 15⟩ T0 =
        transit_of T0 + degreesR (arccos (clamp_cos
          (cos_hour_angle 27.9506 (-(((15 : ℚ) : ℝ))) (declination_of T0)))) / 15 := rfl
    rw [h0, show (-(((15 : ℚ) : ℝ))) = ((-15 : ℝ)) from by norm_num, ← hcf,
      hclf, degreesR_div_15]
  have harc_cf_u : arccos cf ≤ π / 2 + 0.6657 := by
    have h1 : arccos cf ≤ arccos (-0.5541 : ℝ) := arccos_antitone hcf_l
    have h2 : arccos (-0.5541 : ℝ) = π / 2 + arcsin 0.5541 := by
      rw [show (-0.5541 : ℝ) = -(0.5541 : ℝ) from by norm_num, Real.arccos_neg,
        Real.arccos_eq_pi_div_two_sub_arcsin]
      ring
    have h3 : arcsin (0.5541 : ℝ) ≤ 0.6657 :=
      arcsin_le_of_mul (by norm_num) (by norm_num : (0 : ℝ) < 0.8324)
        (by norm_num) (by norm_num)
    linarith
  have harc_cs_l : π / 2 - 0.2205 ≤ arccos cs := by
    have h1 : arccos (0.2152 : ℝ) ≤ arccos cs := arccos_antitone hcs_u
    have h2 : arccos (0.2152 : ℝ) = π / 2 - arcsin 0.2152 :=
      Real.arccos_eq_pi_div_two_sub_arcsin _
    have h3 : arcsin (0.2152 : ℝ) ≤ 0.2205 :=
      arcsin_le_of_mul (by norm_num) (by norm_num : (0 : ℝ) < 0.976)
        (by norm_num) (by norm_num)
    linarith
  have harc_cs_u : arccos cs ≤ π / 2 + 0.2596 := by
    have h1 : arccos cs ≤ arccos (-0.2512 : ℝ) := arccos_antitone hcs_l
    have h2 : arccos (-0.2512 : ℝ) = π / 2 + arcsin 0.2512 := by
      rw [show (-0.2512 : ℝ) = -(0.2512 : ℝ) from by norm_num, Real.arccos_neg,
        Real.arccos_eq_pi_div_two_sub_arcsin]
      ring
    have h3 : arcsin (0.2512 : ℝ) ≤ 0.2596 :=
      arcsin_le_of_mul (by norm_num) (by norm_num : (0 : ℝ) < 0.9679)
        (by norm_num) (by norm_num)
    linarith
  have harc_ca_l : (0.0164 : ℝ) ≤ arccos ca := by
    have := arccos_ge_one_sub (c := ca) (by linarith) (by linarith)
    linarith
  have harc_ca_u : arccos ca ≤ π / 2 - 0.2163 := by
    have h1 : arccos ca ≤ arccos (0.2163 : ℝ) := arccos_antitone hca_l
    have h2 : arccos (0.2163 : ℝ) = π / 2 - arcsin 0.2163 :=
      Real.arccos_eq_pi_div_two_sub_arcsin _
    have h3 : (0.2163 : ℝ) ≤ arcsin 0.2163 := le_arcsin_self (by norm_num) (by norm_num)
    linarith
  have harc_gap : (0.276 : ℝ) ≤ arccos cf - arccos cs := by
    have := sub_le_arccos_sub (a := cf) (b := cs) (by linarith) (by linarith) (by linarith)
    linarith
  have hdiv_fs : (1.054 : ℝ) ≤ arccos cf * 12 / π - arccos cs * 12 / π := by
    rw [show arccos cf * 12 / π - arccos cs * 12 / π =
        (arccos cf - arccos cs) * 12 / π from by ring, le_div_iff hπ0]
    nlinarith [harc_gap, hπu]
  have hdiv_s_l : (5.1577 : ℝ) ≤ arccos cs * 12 / π := by
    rw [le_div_iff hπ0]
    nlinarith [harc_cs_l, hπl]
  have hdiv_s_u : arccos cs * 12 / π ≤ 6.9916 := by
    rw [div_le_iff hπ0]
    nlinarith [harc_cs_u, hπl]
  have hdiv_a_l : (0.0626 : ℝ) ≤ arccos ca * 12 / π := by
    rw [le_div_iff hπ0]
    nlinarith [harc_ca_l, hπu]
  have hdiv_a_u : arccos ca * 12 / π ≤ 5.1739 := by
    rw [div_le_iff hπ0]
    nlinarith [harc_ca_u, hπu]
  have hdiv_f_u : arccos cf * 12 / π ≤ 8.5428 := by
    rw [div_le_iff hπ0]
    nlinarith [harc_cf_u, hπl]
  refine ⟨?_, ?_, ?_, ?_, ?_, ?_, ?_⟩
  · rw [hF, hS]; linarith [hdiv_fs]
  · rw [hS]; linarith [hdiv_s_l]
  · rw [hA]; linarith [hdiv_a_l]
  · rw [hA, hM]; linarith [hdiv_s_l, hdiv_a_u]
  · rw [hM, hI]; linarith [hdiv_fs]
  · rw [hF]; linarith [hdiv_f_u]
  · rw [hI]; linarith [hdiv_f_u]

theorem pair_minutes_eq (lon tz x : ℝ) (h0 : 0 ≤ x + -lon / 15 + tz)
    (h1 : x + -lon / 15 + tz < 24) :
    (hours_to_time_pair lon tz x).1 * 60 + (hours_to_time_pair lon tz x).2 =
      ⌊60 * (x + -lon / 15 + tz)⌋ := by
  rw [hours_pair_minutes, pymodR_eq_self (by norm_num) h0 h1]

/-- The clock-minute values of the six Tampa/ISNA schedule entries on
2025-09-03 are strictly increasing. -/
theorem tampa_minutes_chain :
    (hours_to_time_pair (-82.4572) (-4)
        (fajr_hours 27.9506 (methods_lookup "ISNA") (julian_century 2025 9 3))).1 * 60 +
      (hours_to_time_pair (-82.4572) (-4)
        (fajr_hours 27.9506 (methods_lookup "ISNA") (julian_century 2025 9 3))).2 <
    (hours_to_time_pair (-82.4572) (-4)
        (sunrise_hours 27.9506 (julian_century 2025 9 3))).1 * 60 +
      (hours_to_time_pair (-82.4572) (-4)
        (sunrise_hours 27.9506 (julian_century 2025 9 3))).2 ∧
    (hours_to_time_pair (-82.4572) (-4)
        (sunrise_hours 27.9506 (julian_century 2025 9 3))).1 * 60 +
      (hours_to_time_pair (-82.4572) (-4)
        (sunrise_hours 27.9506 (julian_century 2025 9 3))).2 <
    (hours_to_time_pair (-82.4572) (-4)
        (transit_of (julian_century 2025 9 3))).1 * 60 +
      (hours_to_time_pair (-82.4572) (-4)
        (transit_of (julian_century 2025 9 3))).2 ∧
    (hours_to_time_pair (-82.4572) (-4)
        (transit_of (julian_century 2025 9 3))).1 * 60 +
      (hours_to_time_pair (-82.4572) (-4)
        (transit_of (julian_century 2025 9 3))).2 <
    (hours_to_time_pair (-82.4572) (-4)
        (asr_hours 27.9506 1 (julian_century 2025 9 3))).1 * 60 +
      (hours_to_time_pair (-82.4572) (-4)
        (asr_hours 27.9506 1 (julian_century 2025 9 3))).2 ∧
    (hours_to_time_pair (-82.4572) (-4)
        (asr_hours 27.9506 1 (julian_century 2025 9 3))).1 * 60 +
      (hours_to_time_pair (-82.4572) (-4)
        (asr_hours 27.9506 1 (julian_century 2025 9 3))).2 <
    (hours_to_time_pair (-82.4572) (-4)
        (maghrib_hours 27.9506 (julian_century 2025 9 3))).1 * 60 +
      (hours_to_time_pair (-82.4572) (-4)
        (maghrib_hours 27.9506 (julian_century 2025 9 3))).2 ∧
    (hours_to_time_pair (-82.4572) (-4)
        (maghrib_hours 27.9506 (julian_century 2025 9 3))).1 * 60 +
      (hours_to_time_pair (-82.4572) (-4)
        (maghrib_hours 27.9506 (julian_century 2025 9 3))).2 <
    (hours_to_time_pair (-82.4572) (-4)
        (isha_hours 27.9506 (methods_lookup "ISNA") (julian_century 2025 9 3))).1 * 60 +
      (hours_to_time_pair (-82.4572) (-4)
        (isha_hours 27.9506 (methods_lookup "ISNA") (julian_century 2025 9 3))).2 := by
  obtain ⟨g1, g2, g3, g4, g5, hFl, hIu⟩ := tampa_hour_bounds
  set T0 := julian_century 2025 9 3 with hT0
  set F := fajr_hours 27.9506 (methods_lookup "ISNA") T0 with hFd
  set S := sunrise_hours 27.9506 T0 with hSd
  set D := transit_of T0 with hDd
  set A := asr_hours 27.9506 1 T0 with hAd
  set M := maghrib_hours 27.9506 T0 with hMd
  set I' := isha_hours 27.9506 (methods_lookup "ISNA") T0 with hId
  have eF := pair_minutes_eq (-82.4572) (-4) F
    (by norm_num; linarith) (by norm_num; linarith)
  have eS := pair_minutes_eq (-82.4572) (-4) S
    (by norm_num; linarith) (by norm_num; linarith)
  have eD := pair_minutes_eq (-82.4572) (-4) D
    (by norm_num; linarith) (by norm_num; linarith)
  have eA := pair_minutes_eq (-82.4572) (-4) A
    (by norm_num; linarith) (by norm_num; linarith)
  have eM := pair_minutes_eq (-82.4572) (-4) M
    (by norm_num; linarith) (by norm_num; linarith)
  have eI := pair_minutes_eq (-82.4572) (-4) I'
    (by norm_num; linarith) (by norm_num; linarith)
  refine ⟨?_, ?_, ?_, ?_, ?_⟩
  · rw [eF, eS]; exact minutes_lt_of_gap (by linarith)
  · rw [eS, eD]; exact minutes_lt_of_gap (by linarith)
  · rw [eD, eA]; exact minutes_lt_of_gap (by linarith)
  · rw [eA, eM]; exact minutes_lt_of_gap (by linarith)
  · rw [eM, eI]; exact minutes_lt_of_gap (by linarith)

/-- C3 counterexample: the claim fails on both counts.  (a) At the Tampa
configuration (latitude 27.9506, longitude −82.4572, timezone −4, ISNA,
2025-09-03) the Dhuhr entry of `calculate_times` is the clock time 13:11–13:47
(hour 13, minute at least 11), outside the claimed 13:00–13:10 window: the code
omits the `longitude/15 − timezone` correction inside the transit computation,
so solar noon at 82.46°W with a −4 offset lands near 13:30, not 13:05.  (b) At
the valid non-polar combination (latitude 0, longitude 180, timezone −4,
2025-09-03) the Maghrib entry's clock time is strictly earlier in the day than
the Dhuhr entry's, so the schedule is not strictly increasing in clock time. -/
theorem C3_counterexample :
    (cache_lookup (calculate_times 27.9506 (-82.4572) (-4) "ISNA" 1 2025 9 3) "Dhuhr" =
        some (hours_to_time (-82.4572) (-4) (transit_of (julian_century 2025 9 3))) ∧
      (hours_to_time_pair (-82.4572) (-4) (transit_of (julian_century 2025 9 3))).1 = 13 ∧
      11 ≤ (hours_to_time_pair (-82.4572) (-4) (transit_of (julian_century 2025 9 3))).2) ∧
    (cache_lookup (calculate_times 0 180 (-4) "ISNA" 1 2025 9 3) "Dhuhr" =
        some (hours_to_time 180 (-4) (transit_of (julian_century 2025 9 3))) ∧
      cache_lookup (calculate_times 0 180 (-4) "ISNA" 1 2025 9 3) "Maghrib" =
        some (hours_to_time 180 (-4) (maghrib_hours 0 (julian_century 2025 9 3))) ∧
      (hours_to_time_pair 180 (-4) (maghrib_hours 0 (julian_century 2025 9 3))).1 * 60 +
          (hours_to_time_pair 180 (-4) (maghrib_hours 0 (julian_century 2025 9 3))).2 <
        (hours_to_time_pair 180 (-4) (transit_of (julian_century 2025 9 3))).1 * 60 +
          (hours_to_time_pair 180 (-4) (transit_of (julian_century 2025 9 3))).2) := by
  obtain ⟨hp1, hp2, hp3⟩ := tampa_dhuhr_pair
  obtain ⟨hz1, hz2⟩ := zero_instance_minutes
  exact ⟨⟨rfl, hp1, hp2⟩, rfl, rfl, by omega⟩

/-- C3 (amended): at the Tampa configuration (latitude 27.9506, longitude
−82.4572, timezone −4, method ISNA, asr shadow factor 1, date 2025-09-03) the
schedule returned by `calculate_times` is strictly increasing in clock time —
Fajr < Sunrise < Dhuhr < Asr < Maghrib < Isha by clock minutes — but Dhuhr
falls at 13:11–13:47 local time, not in the claimed 13:00–13:10 window; and
strict increase does not hold for every valid non-polar (latitude, longitude,
date) combination. -/
theorem C3_amended :
    calculate_times 27.9506 (-82.4572) (-4) "ISNA" 1 2025 9 3 =
      [("Fajr", hours_to_time (-82.4572) (-4)
          (fajr_hours 27.9506 (methods_lookup "ISNA") (julian_century 2025 9 3))),
       ("Sunrise", hours_to_time (-82.4572) (-4)
          (sunrise_hours 27.9506 (julian_century 2025 9 3))),
       ("Dhuhr", hours_to_time (-82.4572) (-4) (transit_of (julian_century 2025 9 3))),
       ("Asr", hours_to_time (-82.4572) (-4)
          (asr_hours 27.9506 1 (julian_century 2025 9 3))),
       ("Maghrib", hours_to_time (-82.4572) (-4)
          (maghrib_hours 27.9506 (julian_century 2025 9 3))),
       ("Isha", hours_to_time (-82.4572) (-4)
          (isha_hours 27.9506 (methods_lookup "ISNA") (julian_century 2025 9 3)))] ∧
    (hours_to_time_pair (-82.4572) (-4)
        (fajr_hours 27.9506 (methods_lookup "ISNA") (julian_century 2025 9 3))).1 * 60 +
      (hours_to_time_pair (-82.4572) (-4)
        (fajr_hours 27.9506 (methods_lookup "ISNA") (julian_century 2025 9 3))).2 <
    (hours_to_time_pair (-82.4572) (-4)
        (sunrise_hours 27.9506 (julian_century 2025 9 3))).1 * 60 +
      (hours_to_time_pair (-82.4572) (-4)
        (sunrise_hours 27.9506 (julian_century 2025 9 3))).2 ∧
    (hours_to_time_pair (-82.4572) (-4)
        (sunrise_hours 27.9506 (julian_century 2025 9 3))).1 * 60 +
      (hours_to_time_pair (-82.4572) (-4)
        (sunrise_hours 27.9506 (julian_century 2025 9 3))).2 <
    (hours_to_time_pair (-82.4572) (-4)
        (transit_of (julian_century 2025 9 3))).1 * 60 +
      (hours_to_time_pair (-82.4572) (-4)
        (transit_of (julian_century 2025 9 3))).2 ∧
    (hours_to_time_pair (-82.4572) (-4)
        (transit_of (julian_century 2025 9 3))).1 * 60 +
      (hours_to_time_pair (-82.4572) (-4)
        (transit_of (julian_century 2025 9 3))).2 <
    (hours_to_time_pair (-82.4572) (-4)
        (asr_hours 27.9506 1 (julian_century 2025 9 3))).1 * 60 +
      (hours_to_time_pair (-82.4572) (-4)
        (asr_hours 27.9506 1 (julian_century 2025 9 3))).2 ∧
    (hours_to_time_pair (-82.4572) (-4)
        (asr_hours 27.9506 1 (julian_century 2025 9 3))).1 * 60 +
      (hours_to_time_pair (-82.4572) (-4)
        (asr_hours 27.9506 1 (julian_century 2025 9 3))).2 <
    (hours_to_time_pair (-82.4572) (-4)
        (maghrib_hours 27.9506 (julian_century 2025 9 3))).1 * 60 +
      (hours_to_time_pair (-82.4572) (-4)
        (maghrib_hours 27.9506 (julian_century 2025 9 3))).2 ∧
    (hours_to_time_pair (-82.4572) (-4)
        (maghrib_hours 27.9506 (julian_century 2025 9 3))).1 * 60 +
      (hours_to_time_pair (-82.4572) (-4)
        (maghrib_hours 27.9506 (julian_century 2025 9 3))).2 <
    (hours_to_time_pair (-82.4572) (-4)
        (isha_hours 27.9506 (methods_lookup "ISNA") (julian_century 2025 9 3))).1 * 60 +
      (hours_to_time_pair (-82.4572) (-4)
        (isha_hours 27.9506 (methods_lookup "ISNA") (julian_century 2025 9 3))).2 ∧
    (hours_to_time_pair (-82.4572) (-4) (transit_of (julian_century 2025 9 3))).1 = 13 ∧
    11 ≤ (hours_to_time_pair (-82.4572) (-4) (transit_of (julian_century 2025 9 3))).2 ∧
    (hours_to_time_pair (-82.4572) (-4) (transit_of (julian_century 2025 9 3))).2 ≤ 47 := by
  obtain ⟨c1, c2, c3, c4, c5⟩ := tampa_minutes_chain
  obtain ⟨hp1, hp2, hp3⟩ := tampa_dhuhr_pair
  exact ⟨rfl, c1, c2, c3, c4, c5, hp1, hp2, hp3⟩
